import Mathlib

/-!
# node-api/server.js: a shallow embedding of the request handlers

Every route handler of `src/node-api/server.js` is translated into a pure function.
The collaborators the handlers call are explicit:

* the store behind `db.query` is a value of `Db σ` acting on a store state `σ`
  (a `SELECT` answers rows, any other statement answers an OK packet, both may
  answer an error);
* `bcrypt.hash`, `bcrypt.compare`, `jwt.sign`, `jwt.verify` and
  `process.env.JWT_SECRET` are the fields of `Runtime`; each call may throw.

A handler returns a `Run`: the response it sent (or the exception that escaped
it), the list of collaborator calls it made, in order, and the final store state.
-/

namespace NodeApi

/-! ## JavaScript values -/

/-- The JavaScript values a JSON body field, a row column or an SQL parameter can
hold. Numbers are modelled as integers; arrays and objects are kept as their JSON
text (they are only ever passed along or tested for truthiness). -/
inductive JsVal
  | undefined
  | null
  | bool (b : Bool)
  | num (n : Int)
  | str (s : String)
  | object (json : String)
deriving DecidableEq, Repr

/-- JavaScript truthiness, the test behind `!x`: `undefined`, `null`, `false`,
`0` and the empty string are falsy, everything else is truthy. -/
def JsVal.truthy : JsVal → Bool
  | .undefined => false
  | .null => false
  | .bool b => b
  | .num n => n != 0
  | .str s => s != ""
  | .object _ => true

/-- JavaScript `ToString`, used when a value serves as a property key. -/
def JsVal.toPropertyKey : JsVal → String
  | .undefined => "undefined"
  | .null => "null"
  | .bool true => "true"
  | .bool false => "false"
  | .num n => toString n
  | .str s => s
  | .object _ => "[object Object]"

/-- A plain object seen through its own properties: a parsed JSON body, a row
returned by the store, a decoded token payload. -/
abbrev JsObject := List (String × JsVal)

/-- Property read `o.k`: the value of the own property, `undefined` when absent. -/
def JsObject.get (o : JsObject) (k : String) : JsVal :=
  (o.lookup k).getD .undefined

/-! ## Store interface -/

/-- The error object handed to a `db.query` callback; `code` is `err.code`. -/
structure DbError where
  code : String
deriving DecidableEq, Repr

/-- A value thrown or rejected inside a handler. -/
inductive JsError
  | typeError (msg : String)
  | thrown (msg : String)
  | db (err : DbError)
deriving DecidableEq, Repr

/-- One positional parameter of a statement: a value, or (for the bulk insert of
`/grades/init`) a list of value tuples. -/
inductive SqlArg
  | val (v : JsVal)
  | tuples (vs : List (List JsVal))
deriving DecidableEq, Repr

/-- A parameterised statement: SQL text and positional parameters. -/
structure Stmt where
  sql : String
  params : List SqlArg
deriving DecidableEq, Repr

/-- The result object of a statement that is not a `SELECT`. -/
structure OkPacket where
  affectedRows : Nat
  insertId : Nat
deriving DecidableEq, Repr

/-- The store behind `db.query`, acting on a store state `σ`. -/
structure Db (σ : Type) where
  select : σ → Stmt → Except DbError (List JsObject) × σ
  exec : σ → Stmt → Except DbError OkPacket × σ

/-- The library calls and process configuration the handlers use. -/
structure Runtime where
  bcryptHash : JsVal → Nat → Except JsError String
  bcryptCompare : JsVal → JsVal → Except JsError Bool
  jwtSign : JsObject → Option String → String → Except JsError String
  jwtVerify : JsVal → Option String → Except JsError JsObject
  jwtSecret : Option String

/-! ## Responses and runs -/

/-- The JSON bodies the handlers send, one constructor per shape. -/
inductive ResBody
  | message (message : String)
  | messageError (message : String) (error : JsError)
  | errorOnly (error : String)
  | token (message : String) (token : String)
  | user (message : String) (user : JsObject)
  | schedule (message : String) (schedule : JsObject)
  | grouped (byDay : List (String × List JsObject))
  | daySchedules (day : String) (schedules : List JsObject)
  | absenceId (message : String) (absenceId : Nat)
  | rows (results : List JsObject)
deriving DecidableEq, Repr

/-- What the client observes: a response, or nothing because an exception escaped
the handler (thrown inside a store callback or rejected inside an async
callback, where nothing catches it). -/
inductive Outcome
  | responded (status : Nat) (body : ResBody)
  | uncaught (error : JsError)
deriving DecidableEq, Repr

/-- A collaborator call made while handling a request, with its result. -/
inductive Event
  | select (stmt : Stmt) (result : Except DbError (List JsObject))
  | exec (stmt : Stmt) (result : Except DbError OkPacket)
  | bcryptHash (data : JsVal) (rounds : Nat) (result : Except JsError String)
  | bcryptCompare (data : JsVal) (encrypted : JsVal) (result : Except JsError Bool)
  | jwtSign (payload : JsObject) (secret : Option String) (expiresIn : String)
      (result : Except JsError String)
  | jwtVerify (token : JsVal) (secret : Option String) (result : Except JsError JsObject)
  | consoleError (label : String) (err : DbError)

/-- The result of handling one request. -/
structure Run (σ : Type) where
  outcome : Outcome
  trace : List Event
  store : σ

/-- The status code of the response, if one was sent. -/
def Outcome.status? : Outcome → Option Nat
  | .responded status _ => some status
  | .uncaught _ => none

/-- The statement of a store call. -/
def Event.stmt? : Event → Option Stmt
  | .select q _ => some q
  | .exec q _ => some q
  | _ => none

/-- The statements issued to the store during a run, in order. -/
def storeStatements (trace : List Event) : List Stmt :=
  trace.filterMap Event.stmt?

/-! ## POST /register -/

def registerSql : String := "INSERT INTO users (username, email, password) VALUES (?, ?, ?)"

def register {σ : Type} (rt : Runtime) (db : Db σ) (s : σ) (body : JsObject) : Run σ :=
  let username := body.get "username"
  let email := body.get "email"
  let password := body.get "password"
  if !username.truthy || !email.truthy || !password.truthy then
    ⟨.responded 400 (.message "All fields are required"), [], s⟩
  else
    match rt.bcryptHash password 10 with
    | .error error =>
      ⟨.responded 500 (.messageError "Error registering user" error),
        [.bcryptHash password 10 (.error error)], s⟩
    | .ok hashedPassword =>
      let query : Stmt := ⟨registerSql, [.val username, .val email, .val (.str hashedPassword)]⟩
      match db.exec s query with
      | (.error err, s1) =>
        if err.code = "ER_DUP_ENTRY" then
          ⟨.responded 400 (.message "Username or email already exists"),
            [.bcryptHash password 10 (.ok hashedPassword), .exec query (.error err)], s1⟩
        else
          ⟨.responded 500 (.messageError "Database error" (.db err)),
            [.bcryptHash password 10 (.ok hashedPassword), .exec query (.error err)], s1⟩
      | (.ok results, s1) =>
        ⟨.responded 201 (.message "User registered successfully"),
          [.bcryptHash password 10 (.ok hashedPassword), .exec query (.ok results)], s1⟩

/-! ## POST /login -/

def loginSql : String := "SELECT * FROM users WHERE username = ?"

def login {σ : Type} (rt : Runtime) (db : Db σ) (s : σ) (body : JsObject) : Run σ :=
  let username := body.get "username"
  let password := body.get "password"
  if !username.truthy || !password.truthy then
    ⟨.responded 400 (.message "All fields are required"), [], s⟩
  else
    let query : Stmt := ⟨loginSql, [.val username]⟩
    match db.select s query with
    | (.error err, s1) =>
      ⟨.responded 500 (.messageError "Database error" (.db err)), [.select query (.error err)], s1⟩
    | (.ok [], s1) =>
      ⟨.responded 404 (.message "User not found"), [.select query (.ok [])], s1⟩
    | (.ok (user :: rest), s1) =>
      let found := Event.select query (.ok (user :: rest))
      match rt.bcryptCompare password (user.get "password") with
      | .error e =>
        ⟨.uncaught e, [found, .bcryptCompare password (user.get "password") (.error e)], s1⟩
      | .ok false =>
        ⟨.responded 401 (.message "Invalid credentials"),
          [found, .bcryptCompare password (user.get "password") (.ok false)], s1⟩
      | .ok true =>
        let payload : JsObject := [("user_id", user.get "user_id")]
        match rt.jwtSign payload rt.jwtSecret "7d" with
        | .error e =>
          ⟨.uncaught e,
            [found, .bcryptCompare password (user.get "password") (.ok true),
              .jwtSign payload rt.jwtSecret "7d" (.error e)], s1⟩
        | .ok token =>
          ⟨.responded 200 (.token "Login successful" token),
            [found, .bcryptCompare password (user.get "password") (.ok true),
              .jwtSign payload rt.jwtSecret "7d" (.ok token)], s1⟩

/-! ## POST /protected -/

/-- JavaScript `split` on a one-character separator, over the characters of the
string: the pieces between separators, empty pieces included. -/
def splitChars (sep : Char) : List Char → List (List Char)
  | [] => [[]]
  | c :: cs =>
    if c = sep then [] :: splitChars sep cs
    else
      match splitChars sep cs with
      | [] => [[c]]
      | w :: ws => (c :: w) :: ws

/-- The expression `authHeader.split(' ')[1]`: the second piece, `undefined` when
there is none. -/
def bearerToken (authHeader : String) : JsVal :=
  match (splitChars ' ' authHeader.data)[1]? with
  | some piece => .str (String.mk piece)
  | none => .undefined

def protectedRoute {σ : Type} (rt : Runtime) (s : σ) (authorization : Option String) : Run σ :=
  match authorization with
  | none => ⟨.responded 401 (.message "Authorization header missing"), [], s⟩
  | some authHeader =>
    if authHeader = "" then
      ⟨.responded 401 (.message "Authorization header missing"), [], s⟩
    else
      let token := bearerToken authHeader
      match rt.jwtVerify token rt.jwtSecret with
      | .ok decoded =>
        ⟨.responded 200 (.user "Access granted" decoded),
          [.jwtVerify token rt.jwtSecret (.ok decoded)], s⟩
      | .error error =>
        ⟨.responded 401 (.message "Invalid or expired token"),
          [.jwtVerify token rt.jwtSecret (.error error)], s⟩

/-! ## Schedules -/

def addScheduleSql : String :=
  "INSERT INTO schedules (username, day, subject, period) VALUES (?, ?, ?, ?)"

def addSchedule {σ : Type} (db : Db σ) (s : σ) (body : JsObject) : Run σ :=
  let username := body.get "username"
  let day := body.get "day"
  let subject := body.get "subject"
  let period := body.get "period"
  if !username.truthy || !day.truthy || !subject.truthy || !period.truthy then
    ⟨.responded 400 (.message "All fields are required"), [], s⟩
  else
    let query : Stmt := ⟨addScheduleSql, [.val username, .val day, .val subject, .val period]⟩
    match db.exec s query with
    | (.error err, s1) =>
      ⟨.responded 500 (.messageError "Database error" (.db err)), [.exec query (.error err)], s1⟩
    | (.ok results, s1) =>
      ⟨.responded 201 (.schedule "Schedule created successfully"
          [("username", username), ("day", day), ("subject", subject), ("period", period)]),
        [.exec query (.ok results)], s1⟩

/-- The names a fresh object literal inherits from `Object.prototype`: reading one
of them on an object that has no own property of that name gives a function (for
`__proto__`, the prototype object), which is truthy and has no `push` method. -/
def objectPrototypeKeys : List String :=
  ["constructor", "__defineGetter__", "__defineSetter__", "hasOwnProperty",
   "__lookupGetter__", "__lookupSetter__", "isPrototypeOf", "propertyIsEnumerable",
   "toString", "valueOf", "__proto__", "toLocaleString"]

/-- Replace the value stored under an own key. -/
def setOwn (k : String) (v : List JsObject) :
    List (String × List JsObject) → List (String × List JsObject)
  | [] => []
  | (k1, v1) :: rest => if k1 = k then (k1, v) :: rest else (k1, v1) :: setOwn k v rest

/-- The property key `schedule.day` under which the reducer files a row. -/
def dayKey (schedule : JsObject) : String := (schedule.get "day").toPropertyKey

/-- One step of the reducer of `/view-schedule/:username`. The accumulator is the
object literal, seen through its own properties. When `acc[schedule.day]` is an
own property it is an array (truthy) and the row is pushed; when it is inherited
from `Object.prototype` it is truthy too, no array is created and `.push` is not
a function; otherwise it is `undefined`, a fresh array is stored and the row
pushed. -/
def groupStep (acc : List (String × List JsObject)) (schedule : JsObject) :
    Except JsError (List (String × List JsObject)) :=
  let key := dayKey schedule
  match acc.lookup key with
  | some entries => .ok (setOwn key (entries ++ [schedule]) acc)
  | none =>
    if key ∈ objectPrototypeKeys then
      .error (.typeError "acc[schedule.day].push is not a function")
    else
      .ok (acc ++ [(key, [schedule])])

/-- The call `results.reduce(step, acc)`. -/
def groupSchedules (acc : List (String × List JsObject)) :
    List JsObject → Except JsError (List (String × List JsObject))
  | [] => .ok acc
  | schedule :: rest =>
    match groupStep acc schedule with
    | .error e => .error e
    | .ok acc1 => groupSchedules acc1 rest

def viewScheduleSql : String := "SELECT * FROM schedules WHERE username = ?"

def viewSchedule {σ : Type} (db : Db σ) (s : σ) (username : String) : Run σ :=
  if username = "" then
    ⟨.responded 400 (.message "Username is required"), [], s⟩
  else
    let query : Stmt := ⟨viewScheduleSql, [.val (.str username)]⟩
    match db.select s query with
    | (.error err, s1) =>
      ⟨.responded 500 (.messageError "Database error" (.db err)), [.select query (.error err)], s1⟩
    | (.ok results, s1) =>
      match groupSchedules [] results with
      | .error e => ⟨.uncaught e, [.select query (.ok results)], s1⟩
      | .ok groupedSchedules =>
        ⟨.responded 200 (.grouped groupedSchedules), [.select query (.ok results)], s1⟩

def dayScheduleSql : String := "SELECT * FROM schedules WHERE username = ? AND day = ?"

/-- The seven handlers `/view-schedule/:username/senin` ... `/minggu` differ only in
the day literal, which is the parameter `day` here. -/
def viewScheduleDay {σ : Type} (day : String) (db : Db σ) (s : σ) (username : String) : Run σ :=
  let query : Stmt := ⟨dayScheduleSql, [.val (.str username), .val (.str day)]⟩
  match db.select s query with
  | (.error err, s1) =>
    ⟨.responded 500 (.messageError "Database error" (.db err)), [.select query (.error err)], s1⟩
  | (.ok results, s1) =>
    ⟨.responded 200 (.daySchedules day results), [.select query (.ok results)], s1⟩

def viewScheduleSenin {σ : Type} (db : Db σ) (s : σ) (username : String) : Run σ :=
  viewScheduleDay "Senin" db s username

def viewScheduleSelasa {σ : Type} (db : Db σ) (s : σ) (username : String) : Run σ :=
  viewScheduleDay "Selasa" db s username

def viewScheduleRabu {σ : Type} (db : Db σ) (s : σ) (username : String) : Run σ :=
  viewScheduleDay "Rabu" db s username

def viewScheduleKamis {σ : Type} (db : Db σ) (s : σ) (username : String) : Run σ :=
  viewScheduleDay "Kamis" db s username

def viewScheduleJumat {σ : Type} (db : Db σ) (s : σ) (username : String) : Run σ :=
  viewScheduleDay "Jumat" db s username

def viewScheduleSabtu {σ : Type} (db : Db σ) (s : σ) (username : String) : Run σ :=
  viewScheduleDay "Sabtu" db s username

def viewScheduleMinggu {σ : Type} (db : Db σ) (s : σ) (username : String) : Run σ :=
  viewScheduleDay "Minggu" db s username

def editScheduleSql : String :=
  "UPDATE schedules SET day = ?, subject = ?, period = ? WHERE schedule_id = ? AND username = ?"

def notOwnedMessage : String := "Schedule not found or does not belong to the specified user"

def editSchedule {σ : Type} (db : Db σ) (s : σ) (schedule_id : String) (body : JsObject) :
    Run σ :=
  let username := body.get "username"
  let day := body.get "day"
  let subject := body.get "subject"
  let period := body.get "period"
  if !username.truthy || !day.truthy || !subject.truthy || !period.truthy then
    ⟨.responded 400 (.message "All fields are required"), [], s⟩
  else
    let query : Stmt :=
      ⟨editScheduleSql, [.val day, .val subject, .val period, .val (.str schedule_id), .val username]⟩
    match db.exec s query with
    | (.error err, s1) =>
      ⟨.responded 500 (.messageError "Database error" (.db err)), [.exec query (.error err)], s1⟩
    | (.ok results, s1) =>
      if results.affectedRows = 0 then
        ⟨.responded 404 (.message notOwnedMessage), [.exec query (.ok results)], s1⟩
      else
        ⟨.responded 200 (.schedule "Schedule updated successfully"
            [("schedule_id", .str schedule_id), ("username", username), ("day", day),
             ("subject", subject), ("period", period)]),
          [.exec query (.ok results)], s1⟩

def delScheduleSql : String := "DELETE FROM schedules WHERE schedule_id = ? AND username = ?"

def delSchedule {σ : Type} (db : Db σ) (s : σ) (schedule_id : String) (body : JsObject) :
    Run σ :=
  let username := body.get "username"
  if schedule_id = "" || !username.truthy then
    ⟨.responded 400 (.message "Schedule ID and username are required"), [], s⟩
  else
    let query : Stmt := ⟨delScheduleSql, [.val (.str schedule_id), .val username]⟩
    match db.exec s query with
    | (.error err, s1) =>
      ⟨.responded 500 (.messageError "Database error" (.db err)), [.exec query (.error err)], s1⟩
    | (.ok results, s1) =>
      if results.affectedRows = 0 then
        ⟨.responded 404 (.message notOwnedMessage), [.exec query (.ok results)], s1⟩
      else
        ⟨.responded 200 (.message "Schedule deleted successfully"), [.exec query (.ok results)], s1⟩

/-! ## Absences -/

def roleSql : String := "SELECT role FROM users WHERE username = ?"

def insertAbsenceSql : String :=
  "INSERT INTO absences (student_name, class, date, status) VALUES (?, ?, ?, ?)"

def addAbsences {σ : Type} (db : Db σ) (s : σ) (body : JsObject) : Run σ :=
  let username := body.get "username"
  let student_name := body.get "student_name"
  let className := body.get "class"
  let date := body.get "date"
  let status := body.get "status"
  if !username.truthy || !student_name.truthy || !className.truthy || !date.truthy
      || !status.truthy then
    ⟨.responded 400 (.message "All fields are required"), [], s⟩
  else
    let userCheck : Stmt := ⟨roleSql, [.val username]⟩
    match db.select s userCheck with
    | (.error err, s1) => ⟨.uncaught (.db err), [.select userCheck (.error err)], s1⟩
    | (.ok [], s1) =>
      ⟨.responded 404 (.message "User not found"), [.select userCheck (.ok [])], s1⟩
    | (.ok (user :: rest), s1) =>
      if user.get "role" ≠ .str "teacher" then
        ⟨.responded 403 (.message "Only teachers can add absences"),
          [.select userCheck (.ok (user :: rest))], s1⟩
      else
        let insert : Stmt :=
          ⟨insertAbsenceSql, [.val student_name, .val className, .val date, .val status]⟩
        match db.exec s1 insert with
        | (.error err, s2) =>
          ⟨.uncaught (.db err),
            [.select userCheck (.ok (user :: rest)), .exec insert (.error err)], s2⟩
        | (.ok results, s2) =>
          ⟨.responded 201 (.absenceId "Absence added successfully" results.insertId),
            [.select userCheck (.ok (user :: rest)), .exec insert (.ok results)], s2⟩

def absencesSql : String := "SELECT student_name, class, date, status FROM absences"

def absences {σ : Type} (db : Db σ) (s : σ) : Run σ :=
  let query : Stmt := ⟨absencesSql, []⟩
  match db.select s query with
  | (.error err, s1) =>
    ⟨.responded 500 (.errorOnly "Internal Server Error"),
      [.select query (.error err), .consoleError "Error fetching data:" err], s1⟩
  | (.ok results, s1) => ⟨.responded 200 (.rows results), [.select query (.ok results)], s1⟩

/-! ## Grades -/

def updateGradeSql : String := "UPDATE grades SET grade = ? WHERE student_name = ? AND subject = ?"

def accessDenied : String := "Access denied: Only teachers can perform this action"

/-- The guard `result.length === 0 || result[0].role !== 'teacher'`. -/
def notTeacher : List JsObject → Bool
  | [] => true
  | user :: _ => user.get "role" != .str "teacher"

def updateGrade {σ : Type} (db : Db σ) (s : σ) (student_name subject : String)
    (body : JsObject) : Run σ :=
  let username := body.get "username"
  let grade := body.get "grade"
  if !username.truthy then
    ⟨.responded 400 (.message "Username is required in the request body"), [], s⟩
  else
    let roleQuery : Stmt := ⟨roleSql, [.val username]⟩
    match db.select s roleQuery with
    | (.error err, s1) =>
      ⟨.responded 500 (.message "Error verifying role"),
        [.select roleQuery (.error err), .consoleError "Error verifying role:" err], s1⟩
    | (.ok result, s1) =>
      if notTeacher result then
        ⟨.responded 403 (.message accessDenied), [.select roleQuery (.ok result)], s1⟩
      else
        let query : Stmt :=
          ⟨updateGradeSql, [.val grade, .val (.str student_name), .val (.str subject)]⟩
        match db.exec s1 query with
        | (.error err, s2) =>
          ⟨.responded 500 (.message "Error updating grade"),
            [.select roleQuery (.ok result), .exec query (.error err),
             .consoleError "Error updating grade:" err], s2⟩
        | (.ok updated, s2) =>
          if updated.affectedRows = 0 then
            ⟨.responded 404 (.message "Student or subject not found"),
              [.select roleQuery (.ok result), .exec query (.ok updated)], s2⟩
          else
            ⟨.responded 200 (.message "Grade updated successfully"),
              [.select roleQuery (.ok result), .exec query (.ok updated)], s2⟩

def subjects : List String :=
  ["Matematika", "IPA", "IPS", "Bahasa Indonesia", "Bahasa Inggris", "PKN", "Olahraga", "Agama"]

def initGradesSql : String := "INSERT INTO grades (student_name, subject) VALUES ?"

def initGrades {σ : Type} (db : Db σ) (s : σ) (student_name : String) (body : JsObject) :
    Run σ :=
  let username := body.get "username"
  if !username.truthy then
    ⟨.responded 400 (.message "Username is required in the request body"), [], s⟩
  else
    let roleQuery : Stmt := ⟨roleSql, [.val username]⟩
    match db.select s roleQuery with
    | (.error err, s1) =>
      ⟨.responded 500 (.message "Error verifying role"),
        [.select roleQuery (.error err), .consoleError "Error verifying role:" err], s1⟩
    | (.ok result, s1) =>
      if notTeacher result then
        ⟨.responded 403 (.message accessDenied), [.select roleQuery (.ok result)], s1⟩
      else
        let values : List (List JsVal) :=
          subjects.map (fun subject => [.str student_name, .str subject])
        let query : Stmt := ⟨initGradesSql, [.tuples values]⟩
        match db.exec s1 query with
        | (.error err, s2) =>
          ⟨.responded 500 (.message "Error initializing grades"),
            [.select roleQuery (.ok result), .exec query (.error err),
             .consoleError "Error initializing grades:" err], s2⟩
        | (.ok inserted, s2) =>
          ⟨.responded 200 (.message "Grades initialized successfully"),
            [.select roleQuery (.ok result), .exec query (.ok inserted)], s2⟩

def gradesSql : String := "SELECT * FROM grades WHERE student_name = ?"

def getGrades {σ : Type} (db : Db σ) (s : σ) (student_name : String) : Run σ :=
  let query : Stmt := ⟨gradesSql, [.val (.str student_name)]⟩
  match db.select s query with
  | (.error err, s1) =>
    ⟨.responded 500 (.message "Error fetching grades"),
      [.select query (.error err), .consoleError "Error fetching grades:" err], s1⟩
  | (.ok [], s1) =>
    ⟨.responded 404 (.message "Grades not found for this student"), [.select query (.ok [])], s1⟩
  | (.ok (row :: rest), s1) =>
    ⟨.responded 200 (.rows (row :: rest)), [.select query (.ok (row :: rest))], s1⟩

/-! ## A table of schedule rows as the store -/

/-- The condition `schedule_id = ? AND username = ?` on one row; `eqv` is the
comparison the store applies between a column value and a parameter. -/
def ownedBy (eqv : JsVal → JsVal → Bool) (schedule_id username : JsVal) (row : JsObject) : Bool :=
  eqv (row.get "schedule_id") schedule_id && eqv (row.get "username") username

/-- Assign one column of a row. -/
def setField (k : String) (v : JsVal) : JsObject → JsObject
  | [] => [(k, v)]
  | (k1, v1) :: rest => if k1 = k then (k, v) :: rest else (k1, v1) :: setField k v rest

/-- The next value of the auto-increment key. -/
def nextScheduleId (rows : List JsObject) : Nat :=
  rows.foldl (fun m r => match r.get "schedule_id" with
    | .num n => max m n.toNat
    | _ => m) 0 + 1

/-- Modelled from the spec: the store is outside the repository source; this is the
`schedules` table as a list of schedule rows {schedule_id, username, day, subject,
period}. The `UPDATE` and `DELETE` of the schedule handlers act on exactly the
rows that satisfy `schedule_id = ? AND username = ?` and report their number as
`affectedRows`; the `INSERT` appends a row; the `SELECT` by username filters.
Any other statement is answered with an error. -/
def scheduleTable (eqv : JsVal → JsVal → Bool) : Db (List JsObject) where
  select rows q :=
    if q.sql = viewScheduleSql then
      match q.params with
      | [.val username] => (.ok (rows.filter fun r => eqv (r.get "username") username), rows)
      | _ => (.error ⟨"ER_WRONG_ARGUMENTS"⟩, rows)
    else if q.sql = dayScheduleSql then
      match q.params with
      | [.val username, .val day] =>
        (.ok (rows.filter fun r => eqv (r.get "username") username && eqv (r.get "day") day), rows)
      | _ => (.error ⟨"ER_WRONG_ARGUMENTS"⟩, rows)
    else (.error ⟨"ER_NO_SUCH_TABLE"⟩, rows)
  exec rows q :=
    if q.sql = editScheduleSql then
      match q.params with
      | [.val day, .val subject, .val period, .val schedule_id, .val username] =>
        (.ok ⟨(rows.filter (ownedBy eqv schedule_id username)).length, 0⟩,
          rows.map fun r =>
            if ownedBy eqv schedule_id username r then
              setField "period" period (setField "subject" subject (setField "day" day r))
            else r)
      | _ => (.error ⟨"ER_WRONG_ARGUMENTS"⟩, rows)
    else if q.sql = delScheduleSql then
      match q.params with
      | [.val schedule_id, .val username] =>
        (.ok ⟨(rows.filter (ownedBy eqv schedule_id username)).length, 0⟩,
          rows.filter fun r => !ownedBy eqv schedule_id username r)
      | _ => (.error ⟨"ER_WRONG_ARGUMENTS"⟩, rows)
    else if q.sql = addScheduleSql then
      match q.params with
      | [.val username, .val day, .val subject, .val period] =>
        (.ok ⟨1, nextScheduleId rows⟩,
          rows ++ [[("schedule_id", .num (nextScheduleId rows)), ("username", username),
                    ("day", day), ("subject", subject), ("period", period)]])
      | _ => (.error ⟨"ER_WRONG_ARGUMENTS"⟩, rows)
    else (.error ⟨"ER_NO_SUCH_TABLE"⟩, rows)

/-! ## Predicates used in the statements -/

/-- A field fails the presence test of the handlers (`!field` holds): it is absent
from the body, or present with a falsy value. -/
def FieldMissing (body : JsObject) (k : String) : Prop := (body.get k).truthy = false

instance (body : JsObject) (k : String) : Decidable (FieldMissing body k) :=
  inferInstanceAs (Decidable ((body.get k).truthy = false))

/-- A run that stopped at validation: status 400 with the given message, no
collaborator call of any kind (no store statement, no hashing, no logging), store
state untouched. -/
def RejectedUntouched {σ : Type} (r : Run σ) (s : σ) (msg : String) : Prop :=
  r.outcome = .responded 400 (.message msg) ∧ r.trace = [] ∧ r.store = s

/-- The role lookup statement for a submitted username. -/
def roleLookup (username : JsVal) : Stmt := ⟨roleSql, [.val username]⟩

/-- The user lookup statement of the login handler. -/
def loginLookup (username : JsVal) : Stmt := ⟨loginSql, [.val username]⟩

/-- Every store call of the run that reported an error was answered with status
500 and was the last statement the run issued. -/
def ErrorsAnswered500 {σ : Type} (r : Run σ) : Prop :=
  ∀ q err, (Event.select q (.error err) ∈ r.trace ∨ Event.exec q (.error err) ∈ r.trace) →
    r.outcome.status? = some 500 ∧ (storeStatements r.trace).getLast? = some q

/-- The rows of a list filed under one key, in the order of the list. -/
def rowsOfDay (d : String) (rows : List JsObject) : List JsObject :=
  rows.filter fun r => dayKey r == d

/-- The accumulator `acc` is the grouping of the rows `seen`: its keys are distinct,
a key is present exactly when some row of `seen` has that day, it then maps to the
rows of that day in their order, and the entries together hold every row once. -/
def GroupingOf (acc : List (String × List JsObject)) (seen : List JsObject) : Prop :=
  (acc.map Prod.fst).Nodup
  ∧ (∀ d l, acc.lookup d = some l → l = rowsOfDay d seen ∧ l ≠ [])
  ∧ (∀ d, acc.lookup d = none → rowsOfDay d seen = [])
  ∧ (acc.map fun e => e.2.length).sum = seen.length

/-! ## Sample collaborators for concrete runs -/

/-- A store that answers every statement with the same results. -/
def constDb (rows : Except DbError (List JsObject)) (packet : Except DbError OkPacket) :
    Db Unit where
  select _ _ := (rows, ())
  exec _ _ := (packet, ())

/-- Comparison of a column value with a parameter by identity of values. -/
def sameValue (a b : JsVal) : Bool := a == b

/-- A schedules table holding one entry, owned by bob. -/
def sampleRows : List JsObject :=
  [[("schedule_id", .str "1"), ("username", .str "bob"), ("day", .str "Senin"),
    ("subject", .str "IPA"), ("period", .num 1)]]

/-- An edit submitted under the username eve. -/
def eveEdit : JsObject :=
  [("username", .str "eve"), ("day", .str "Rabu"), ("subject", .str "IPS"), ("period", .num 2)]

/-- A schedule entry for bob on the given day. -/
def bobSchedule (day : String) : JsObject :=
  [("username", .str "bob"), ("day", .str day), ("subject", .str "IPA"), ("period", .num 1)]

/-- A runtime whose hash is a tagged copy, whose compare accepts exactly the tagged
copy, whose tokens are a fixed text per payload and verify back to one payload. -/
def sampleRuntime : Runtime where
  bcryptHash data _ :=
    match data with
    | .str p => .ok ("$2b$10$" ++ p)
    | _ => .error (.thrown "data must be a string or Buffer")
  bcryptCompare data encrypted :=
    match data, encrypted with
    | .str p, .str h => .ok (h == "$2b$10$" ++ p)
    | _, _ => .error (.thrown "data and hash must be strings")
  jwtSign _ secret _ :=
    match secret with
    | some _ => .ok "header.payload.signature"
    | none => .error (.thrown "secretOrPrivateKey must have a value")
  jwtVerify token secret :=
    match token, secret with
    | .str "header.payload.signature", some _ => .ok [("user_id", .num 7)]
    | _, _ => .error (.thrown "invalid token")
  jwtSecret := some "secret"

/-! ## Validation happens before any store access -/

theorem fieldMissing_of_absent (body : JsObject) (k : String) (h : body.lookup k = none) :
    FieldMissing body k := by
  simp [FieldMissing, JsObject.get, h, JsVal.truthy]

/-- C7: in each of the eight operations with required fields (register, login,
add-schedule, edit-schedule, del-schedule, add-absences, grade update, grade init),
a request in which at least one required field fails the presence test (is absent
or falsy) is answered with status 400, and the run contains no collaborator call
at all: no store statement, no password hashing; the store state is unchanged. -/
theorem missing_field_rejected_before_store {σ : Type} (rt : Runtime) (db : Db σ) (s : σ)
    (body : JsObject) (schedule_id student_name subject : String) :
    ((FieldMissing body "username" ∨ FieldMissing body "email" ∨ FieldMissing body "password") →
      RejectedUntouched (register rt db s body) s "All fields are required")
    ∧ ((FieldMissing body "username" ∨ FieldMissing body "password") →
      RejectedUntouched (login rt db s body) s "All fields are required")
    ∧ ((FieldMissing body "username" ∨ FieldMissing body "day" ∨ FieldMissing body "subject"
          ∨ FieldMissing body "period") →
      RejectedUntouched (addSchedule db s body) s "All fields are required")
    ∧ ((FieldMissing body "username" ∨ FieldMissing body "day" ∨ FieldMissing body "subject"
          ∨ FieldMissing body "period") →
      RejectedUntouched (editSchedule db s schedule_id body) s "All fields are required")
    ∧ ((FieldMissing body "username" ∨ schedule_id = "") →
      RejectedUntouched (delSchedule db s schedule_id body) s
        "Schedule ID and username are required")
    ∧ ((FieldMissing body "username" ∨ FieldMissing body "student_name"
          ∨ FieldMissing body "class" ∨ FieldMissing body "date" ∨ FieldMissing body "status") →
      RejectedUntouched (addAbsences db s body) s "All fields are required")
    ∧ (FieldMissing body "username" →
      RejectedUntouched (updateGrade db s student_name subject body) s
        "Username is required in the request body")
    ∧ (FieldMissing body "username" →
      RejectedUntouched (initGrades db s student_name body) s
        "Username is required in the request body") := by
  unfold FieldMissing RejectedUntouched
  refine ⟨?_, ?_, ?_, ?_, ?_, ?_, ?_, ?_⟩
  · intro h
    unfold register
    rcases h with h | h | h <;> simp [h]
  · intro h
    unfold login
    rcases h with h | h <;> simp [h]
  · intro h
    unfold addSchedule
    rcases h with h | h | h | h <;> simp [h]
  · intro h
    unfold editSchedule
    rcases h with h | h | h | h <;> simp [h]
  · intro h
    unfold delSchedule
    rcases h with h | h <;> simp [h]
  · intro h
    unfold addAbsences
    rcases h with h | h | h | h | h <;> simp [h]
  · intro h
    unfold updateGrade
    simp [h]
  · intro h
    unfold initGrades
    simp [h]

/-- C7 at concrete requests: a registration without password, a login without
username, and an absence report without status, against a store that would accept
anything. -/
theorem missing_field_rejected_before_store_witness :
    RejectedUntouched
        (register sampleRuntime (constDb (.ok []) (.ok ⟨1, 1⟩)) ()
          [("username", .str "alice"), ("email", .str "a@x.com")])
        () "All fields are required"
    ∧ RejectedUntouched
        (login sampleRuntime (constDb (.ok []) (.ok ⟨1, 1⟩)) ()
          [("username", .str "alice"), ("email", .str "a@x.com")])
        () "All fields are required"
    ∧ RejectedUntouched
        (addAbsences (constDb (.ok []) (.ok ⟨1, 1⟩)) ()
          [("username", .str "alice"), ("email", .str "a@x.com")])
        () "All fields are required" :=
  have h := missing_field_rejected_before_store sampleRuntime (constDb (.ok []) (.ok ⟨1, 1⟩)) ()
    [("username", .str "alice"), ("email", .str "a@x.com")] "1" "ani" "IPA"
  ⟨h.1 (Or.inr (Or.inr rfl)), h.2.1 (Or.inr rfl), h.2.2.2.2.2.1 (Or.inr (Or.inl rfl))⟩

/-- C10: presence is tested by truthiness. For add-schedule and edit-schedule, a
request whose body does contain `period`, with the value `0`, `false` or the empty
string, is answered 400 "All fields are required" and no store statement is
issued, whatever the other fields are (in particular when username, day and subject
are non-empty strings). -/
theorem falsy_period_rejected {σ : Type} (db : Db σ) (s : σ) (schedule_id : String)
    (body : JsObject) (p : JsVal) (hperiod : body.lookup "period" = some p)
    (hp : p = .num 0 ∨ p = .bool false ∨ p = .str "") :
    RejectedUntouched (addSchedule db s body) s "All fields are required"
    ∧ RejectedUntouched (editSchedule db s schedule_id body) s "All fields are required" := by
  have hm : (body.get "period").truthy = false := by
    rcases hp with hp | hp | hp <;> subst hp <;> simp [JsObject.get, hperiod, JsVal.truthy]
  unfold RejectedUntouched addSchedule editSchedule
  simp [hm]

/-- C10 at a concrete request: username, day and subject are non-empty strings and
period is the number 0. -/
theorem falsy_period_rejected_witness :
    RejectedUntouched
        (addSchedule (constDb (.ok []) (.ok ⟨1, 1⟩)) ()
          [("username", .str "bob"), ("day", .str "Senin"), ("subject", .str "IPA"),
           ("period", .num 0)])
        () "All fields are required"
    ∧ RejectedUntouched
        (editSchedule (constDb (.ok []) (.ok ⟨1, 1⟩)) () "1"
          [("username", .str "bob"), ("day", .str "Senin"), ("subject", .str "IPA"),
           ("period", .num 0)])
        () "All fields are required" :=
  falsy_period_rejected (constDb (.ok []) (.ok ⟨1, 1⟩)) () "1"
    [("username", .str "bob"), ("day", .str "Senin"), ("subject", .str "IPA"),
     ("period", .num 0)] (.num 0) (by decide) (Or.inl rfl)

/-! ## Registration never writes a role -/

theorem register_statements {σ : Type} (rt : Runtime) (db : Db σ) (s : σ) (body : JsObject) :
    storeStatements (register rt db s body).trace =
      if (body.get "username").truthy && (body.get "email").truthy
          && (body.get "password").truthy then
        match rt.bcryptHash (body.get "password") 10 with
        | .ok h => [⟨registerSql,
            [.val (body.get "username"), .val (body.get "email"), .val (.str h)]⟩]
        | .error _ => []
      else [] := by
  unfold register
  by_cases hu : (body.get "username").truthy = true
  · by_cases he : (body.get "email").truthy = true
    · by_cases hp : (body.get "password").truthy = true
      · simp only [hu, he, hp, Bool.not_true, Bool.or_self, Bool.false_eq_true, if_false,
          Bool.and_self, if_true]
        cases hh : rt.bcryptHash (body.get "password") 10 with
        | error e => simp [storeStatements, Event.stmt?]
        | ok h =>
          simp only []
          rcases hx : db.exec s ⟨registerSql,
              [.val (body.get "username"), .val (body.get "email"), .val (.str h)]⟩ with ⟨r, s1⟩
          cases r with
          | error err =>
            by_cases hc : err.code = "ER_DUP_ENTRY" <;> simp [hc, storeStatements, Event.stmt?]
          | ok results => simp [storeStatements, Event.stmt?]
      · simp [hp, storeStatements]
    · simp [he, storeStatements]
  · simp [hu, storeStatements]

/-- C9: the registration path never lets the client choose a role. For a request
whose username, email and password pass the presence test, when the hash returns
`h` exactly one store statement is issued: the `INSERT` into users naming only the
columns (username, email, password), with parameters [username, email, h]. For
every request, every statement issued is that `INSERT` and carries the output of
the hash, not the submitted password, and at most one is issued. Consequently a
second request that agrees on the three fields (whatever else its body holds, such
as a role) issues the same statements, against any store. -/
theorem register_never_sets_role {σ : Type} (rt : Runtime) (db : Db σ) (s : σ)
    (body : JsObject) :
    (¬ FieldMissing body "username" → ¬ FieldMissing body "email" →
      ¬ FieldMissing body "password" →
      ∀ h, rt.bcryptHash (body.get "password") 10 = .ok h →
        storeStatements (register rt db s body).trace =
          [⟨"INSERT INTO users (username, email, password) VALUES (?, ?, ?)",
            [.val (body.get "username"), .val (body.get "email"), .val (.str h)]⟩])
    ∧ (∀ q ∈ storeStatements (register rt db s body).trace,
        q.sql = "INSERT INTO users (username, email, password) VALUES (?, ?, ?)"
        ∧ ∃ h, rt.bcryptHash (body.get "password") 10 = .ok h
          ∧ q.params = [.val (body.get "username"), .val (body.get "email"), .val (.str h)])
    ∧ (storeStatements (register rt db s body).trace).length ≤ 1
    ∧ (∀ (τ : Type) (db2 : Db τ) (s2 : τ) (body2 : JsObject),
        body2.get "username" = body.get "username" → body2.get "email" = body.get "email" →
        body2.get "password" = body.get "password" →
        storeStatements (register rt db2 s2 body2).trace
          = storeStatements (register rt db s body).trace) := by
  refine ⟨?_, ?_, ?_, ?_⟩
  · intro hu he hp h hh
    simp only [FieldMissing, Bool.not_eq_false] at hu he hp
    rw [register_statements, hh]
    simp [hu, he, hp, registerSql]
  · intro q hq
    rw [register_statements] at hq
    split at hq
    · cases hh : rt.bcryptHash (body.get "password") 10 with
      | error e => simp [hh] at hq
      | ok h =>
        simp only [hh, List.mem_singleton] at hq
        subst hq
        exact ⟨rfl, h, rfl, rfl⟩
    · simp at hq
  · rw [register_statements]
    split
    · cases rt.bcryptHash (body.get "password") 10 <;> simp
    · simp
  · intro τ db2 s2 body2 e1 e2 e3
    rw [register_statements, register_statements, e1, e2, e3]

/-- C9 at a concrete pair of requests: the second also submits role teacher; both
issue the one INSERT with the hash of the password. -/
theorem register_never_sets_role_witness :
    storeStatements (register sampleRuntime (constDb (.ok []) (.ok ⟨1, 1⟩)) ()
        [("username", .str "alice"), ("email", .str "a@x.com"), ("password", .str "pw1")]).trace
      = [⟨"INSERT INTO users (username, email, password) VALUES (?, ?, ?)",
          [.val (.str "alice"), .val (.str "a@x.com"), .val (.str "$2b$10$pw1")]⟩]
    ∧ storeStatements (register sampleRuntime (constDb (.ok []) (.ok ⟨1, 1⟩)) ()
        [("username", .str "alice"), ("email", .str "a@x.com"), ("password", .str "pw1"),
         ("role", .str "teacher")]).trace
      = storeStatements (register sampleRuntime (constDb (.ok []) (.ok ⟨1, 1⟩)) ()
        [("username", .str "alice"), ("email", .str "a@x.com"), ("password", .str "pw1")]).trace :=
  have h := register_never_sets_role sampleRuntime (constDb (.ok []) (.ok ⟨1, 1⟩)) ()
    [("username", .str "alice"), ("email", .str "a@x.com"), ("password", .str "pw1")]
  ⟨h.1 (by decide) (by decide) (by decide) "$2b$10$pw1" rfl,
    h.2.2.2 Unit (constDb (.ok []) (.ok ⟨1, 1⟩)) ()
      [("username", .str "alice"), ("email", .str "a@x.com"), ("password", .str "pw1"),
       ("role", .str "teacher")] rfl rfl rfl⟩

/-! ## The teacher gate -/

theorem addAbsences_exec_after_teacher {σ : Type} (db : Db σ) (s : σ) (body : JsObject)
    (q : Stmt) (r : Except DbError OkPacket)
    (hmem : Event.exec q r ∈ (addAbsences db s body).trace) :
    ∃ user rest post, user.get "role" = .str "teacher"
      ∧ (addAbsences db s body).trace
          = .select (roleLookup (body.get "username")) (.ok (user :: rest)) :: .exec q r :: post := by
  generalize hr : addAbsences db s body = run at hmem ⊢
  unfold addAbsences at hr
  simp only [] at hr
  split at hr
  · subst hr; simp at hmem
  · split at hr
    · subst hr; simp at hmem
    · subst hr; simp at hmem
    · rename_i user rest s1 hsel
      split at hr
      · subst hr; simp at hmem
      · rename_i hrole
        split at hr <;> subst hr <;> simp at hmem <;>
          (obtain ⟨rfl, rfl⟩ := hmem; exact ⟨user, rest, _, by simpa using hrole, rfl⟩)

theorem updateGrade_exec_after_teacher {σ : Type} (db : Db σ) (s : σ)
    (student_name subject : String) (body : JsObject) (q : Stmt) (r : Except DbError OkPacket)
    (hmem : Event.exec q r ∈ (updateGrade db s student_name subject body).trace) :
    ∃ user rest post, user.get "role" = .str "teacher"
      ∧ (updateGrade db s student_name subject body).trace
          = .select (roleLookup (body.get "username")) (.ok (user :: rest)) :: .exec q r :: post := by
  generalize hr : updateGrade db s student_name subject body = run at hmem ⊢
  unfold updateGrade at hr
  simp only [] at hr
  split at hr
  · subst hr; simp at hmem
  · split at hr
    · subst hr; simp at hmem
    · rename_i result s1 hsel
      split at hr
      · subst hr; simp at hmem
      · rename_i hrole
        cases result with
        | nil => simp [notTeacher] at hrole
        | cons user rest =>
          split at hr
          · subst hr
            simp at hmem
            obtain ⟨rfl, rfl⟩ := hmem
            exact ⟨user, rest, _, by simpa [notTeacher] using hrole, rfl⟩
          · split at hr <;> subst hr <;> simp at hmem <;>
              (obtain ⟨rfl, rfl⟩ := hmem; exact ⟨user, rest, _, by simpa [notTeacher] using hrole, rfl⟩)

theorem initGrades_exec_after_teacher {σ : Type} (db : Db σ) (s : σ)
    (student_name : String) (body : JsObject) (q : Stmt) (r : Except DbError OkPacket)
    (hmem : Event.exec q r ∈ (initGrades db s student_name body).trace) :
    ∃ user rest post, user.get "role" = .str "teacher"
      ∧ (initGrades db s student_name body).trace
          = .select (roleLookup (body.get "username")) (.ok (user :: rest)) :: .exec q r :: post := by
  generalize hr : initGrades db s student_name body = run at hmem ⊢
  unfold initGrades at hr
  simp only [] at hr
  split at hr
  · subst hr; simp at hmem
  · split at hr
    · subst hr; simp at hmem
    · rename_i result s1 hsel
      split at hr
      · subst hr; simp at hmem
      · rename_i hrole
        cases result with
        | nil => simp [notTeacher] at hrole
        | cons user rest =>
          split at hr <;> subst hr <;> simp at hmem <;>
            (obtain ⟨rfl, rfl⟩ := hmem; exact ⟨user, rest, _, by simpa [notTeacher] using hrole, rfl⟩)

theorem addAbsences_lookup_non_teacher {σ : Type} (db : Db σ) (s : σ) (body : JsObject)
    (user : JsObject) (rest : List JsObject)
    (hmem : Event.select (roleLookup (body.get "username")) (.ok (user :: rest))
      ∈ (addAbsences db s body).trace)
    (hrole : user.get "role" ≠ .str "teacher") :
    (addAbsences db s body).outcome = .responded 403 (.message "Only teachers can add absences")
    ∧ (addAbsences db s body).trace
        = [.select (roleLookup (body.get "username")) (.ok (user :: rest))] := by
  generalize hr : addAbsences db s body = run at hmem ⊢
  unfold addAbsences at hr
  simp only [] at hr
  repeat' split at hr
  all_goals subst hr
  all_goals simp [roleLookup] at hmem ⊢
  all_goals simp_all

theorem updateGrade_lookup_non_teacher {σ : Type} (db : Db σ) (s : σ)
    (student_name subject : String) (body : JsObject)
    (user : JsObject) (rest : List JsObject)
    (hmem : Event.select (roleLookup (body.get "username")) (.ok (user :: rest))
      ∈ (updateGrade db s student_name subject body).trace)
    (hrole : user.get "role" ≠ .str "teacher") :
    (updateGrade db s student_name subject body).outcome
        = .responded 403 (.message "Access denied: Only teachers can perform this action")
    ∧ (updateGrade db s student_name subject body).trace
        = [.select (roleLookup (body.get "username")) (.ok (user :: rest))] := by
  generalize hr : updateGrade db s student_name subject body = run at hmem ⊢
  unfold updateGrade at hr
  simp only [] at hr
  repeat' split at hr
  all_goals subst hr
  all_goals simp [roleLookup, accessDenied] at hmem ⊢
  all_goals (subst hmem; simp_all [notTeacher])

theorem initGrades_lookup_non_teacher {σ : Type} (db : Db σ) (s : σ)
    (student_name : String) (body : JsObject)
    (user : JsObject) (rest : List JsObject)
    (hmem : Event.select (roleLookup (body.get "username")) (.ok (user :: rest))
      ∈ (initGrades db s student_name body).trace)
    (hrole : user.get "role" ≠ .str "teacher") :
    (initGrades db s student_name body).outcome
        = .responded 403 (.message "Access denied: Only teachers can perform this action")
    ∧ (initGrades db s student_name body).trace
        = [.select (roleLookup (body.get "username")) (.ok (user :: rest))] := by
  generalize hr : initGrades db s student_name body = run at hmem ⊢
  unfold initGrades at hr
  simp only [] at hr
  repeat' split at hr
  all_goals subst hr
  all_goals simp [roleLookup, accessDenied] at hmem ⊢
  all_goals (subst hmem; simp_all [notTeacher])

/-- C1: for POST /add-absences, PUT /grades/:student_name/:subject and
POST /grades/init/:student_name: if the role lookup for the submitted username
returns a first row whose role is not teacher, the response status is 403 and the
role lookup is the only statement issued (no INSERT, no UPDATE). This is stated
twice: for every request whose required fields pass the presence test and every
store that answers the lookup so (first three parts), and for every run whatsoever
in which such a lookup occurs (next three). Finally, in every run of the three
handlers, a statement other than a SELECT is issued only directly after a role
lookup of that same run returned a first row with role teacher. -/
theorem non_teacher_forbidden_no_mutation {σ : Type} (db : Db σ) (s : σ) (body : JsObject)
    (student_name subject : String) :
    (∀ user rest s1,
      ¬ FieldMissing body "username" → ¬ FieldMissing body "student_name" →
      ¬ FieldMissing body "class" → ¬ FieldMissing body "date" → ¬ FieldMissing body "status" →
      db.select s (roleLookup (body.get "username")) = (.ok (user :: rest), s1) →
      user.get "role" ≠ .str "teacher" →
        (addAbsences db s body).outcome
            = .responded 403 (.message "Only teachers can add absences")
        ∧ storeStatements (addAbsences db s body).trace = [roleLookup (body.get "username")]
        ∧ ∀ q r, Event.exec q r ∉ (addAbsences db s body).trace)
    ∧ (∀ user rest s1, ¬ FieldMissing body "username" →
      db.select s (roleLookup (body.get "username")) = (.ok (user :: rest), s1) →
      user.get "role" ≠ .str "teacher" →
        (updateGrade db s student_name subject body).outcome
            = .responded 403 (.message "Access denied: Only teachers can perform this action")
        ∧ storeStatements (updateGrade db s student_name subject body).trace
            = [roleLookup (body.get "username")]
        ∧ ∀ q r, Event.exec q r ∉ (updateGrade db s student_name subject body).trace)
    ∧ (∀ user rest s1, ¬ FieldMissing body "username" →
      db.select s (roleLookup (body.get "username")) = (.ok (user :: rest), s1) →
      user.get "role" ≠ .str "teacher" →
        (initGrades db s student_name body).outcome
            = .responded 403 (.message "Access denied: Only teachers can perform this action")
        ∧ storeStatements (initGrades db s student_name body).trace
            = [roleLookup (body.get "username")]
        ∧ ∀ q r, Event.exec q r ∉ (initGrades db s student_name body).trace)
    ∧ (∀ user rest,
        Event.select (roleLookup (body.get "username")) (.ok (user :: rest))
          ∈ (addAbsences db s body).trace →
        user.get "role" ≠ .str "teacher" →
        (addAbsences db s body).outcome
            = .responded 403 (.message "Only teachers can add absences")
        ∧ (addAbsences db s body).trace
            = [.select (roleLookup (body.get "username")) (.ok (user :: rest))])
    ∧ (∀ user rest,
        Event.select (roleLookup (body.get "username")) (.ok (user :: rest))
          ∈ (updateGrade db s student_name subject body).trace →
        user.get "role" ≠ .str "teacher" →
        (updateGrade db s student_name subject body).outcome
            = .responded 403 (.message "Access denied: Only teachers can perform this action")
        ∧ (updateGrade db s student_name subject body).trace
            = [.select (roleLookup (body.get "username")) (.ok (user :: rest))])
    ∧ (∀ user rest,
        Event.select (roleLookup (body.get "username")) (.ok (user :: rest))
          ∈ (initGrades db s student_name body).trace →
        user.get "role" ≠ .str "teacher" →
        (initGrades db s student_name body).outcome
            = .responded 403 (.message "Access denied: Only teachers can perform this action")
        ∧ (initGrades db s student_name body).trace
            = [.select (roleLookup (body.get "username")) (.ok (user :: rest))])
    ∧ (∀ q r, Event.exec q r ∈ (addAbsences db s body).trace →
        ∃ user rest post, user.get "role" = .str "teacher"
          ∧ (addAbsences db s body).trace
            = .select (roleLookup (body.get "username")) (.ok (user :: rest)) :: .exec q r :: post)
    ∧ (∀ q r, Event.exec q r ∈ (updateGrade db s student_name subject body).trace →
        ∃ user rest post, user.get "role" = .str "teacher"
          ∧ (updateGrade db s student_name subject body).trace
            = .select (roleLookup (body.get "username")) (.ok (user :: rest)) :: .exec q r :: post)
    ∧ (∀ q r, Event.exec q r ∈ (initGrades db s student_name body).trace →
        ∃ user rest post, user.get "role" = .str "teacher"
          ∧ (initGrades db s student_name body).trace
            = .select (roleLookup (body.get "username")) (.ok (user :: rest)) :: .exec q r :: post) := by
  refine ⟨?_, ?_, ?_, addAbsences_lookup_non_teacher db s body,
    updateGrade_lookup_non_teacher db s student_name subject body,
    initGrades_lookup_non_teacher db s student_name body,
    addAbsences_exec_after_teacher db s body,
    updateGrade_exec_after_teacher db s student_name subject body,
    initGrades_exec_after_teacher db s student_name body⟩
  · intro user rest s1 h1 h2 h3 h4 h5 hsel hrole
    simp only [FieldMissing, Bool.not_eq_false] at h1 h2 h3 h4 h5
    simp only [roleLookup] at hsel
    simp [addAbsences, h1, h2, h3, h4, h5, hsel, hrole, storeStatements, Event.stmt?, roleLookup]
  · intro user rest s1 h1 hsel hrole
    simp only [FieldMissing, Bool.not_eq_false] at h1
    simp only [roleLookup] at hsel
    simp [updateGrade, h1, hsel, hrole, notTeacher, storeStatements, Event.stmt?, roleLookup,
      accessDenied]
  · intro user rest s1 h1 hsel hrole
    simp only [FieldMissing, Bool.not_eq_false] at h1
    simp only [roleLookup] at hsel
    simp [initGrades, h1, hsel, hrole, notTeacher, storeStatements, Event.stmt?, roleLookup,
      accessDenied]

/-- C1 at concrete requests: the submitted username belongs to a student; each of
the three handlers answers 403. -/
theorem non_teacher_forbidden_no_mutation_witness :
    (addAbsences (constDb (.ok [[("role", .str "student")]]) (.ok ⟨1, 1⟩)) ()
        [("username", .str "budi"), ("student_name", .str "ani"), ("class", .str "7A"),
         ("date", .str "2024-12-01"), ("status", .str "sakit")]).outcome
      = .responded 403 (.message "Only teachers can add absences")
    ∧ (updateGrade (constDb (.ok [[("role", .str "student")]]) (.ok ⟨1, 1⟩)) () "ani" "IPA"
        [("username", .str "budi"), ("student_name", .str "ani"), ("class", .str "7A"),
         ("date", .str "2024-12-01"), ("status", .str "sakit")]).outcome
      = .responded 403 (.message "Access denied: Only teachers can perform this action")
    ∧ (initGrades (constDb (.ok [[("role", .str "student")]]) (.ok ⟨1, 1⟩)) () "ani"
        [("username", .str "budi"), ("student_name", .str "ani"), ("class", .str "7A"),
         ("date", .str "2024-12-01"), ("status", .str "sakit")]).outcome
      = .responded 403 (.message "Access denied: Only teachers can perform this action") :=
  have h := non_teacher_forbidden_no_mutation
    (constDb (.ok [[("role", .str "student")]]) (.ok ⟨1, 1⟩)) ()
    [("username", .str "budi"), ("student_name", .str "ani"), ("class", .str "7A"),
     ("date", .str "2024-12-01"), ("status", .str "sakit")] "ani" "IPA"
  ⟨(h.1 [("role", .str "student")] [] () (by decide) (by decide) (by decide) (by decide)
      (by decide) rfl (by decide)).1,
    (h.2.1 [("role", .str "student")] [] () (by decide) rfl (by decide)).1,
    (h.2.2.1 [("role", .str "student")] [] () (by decide) rfl (by decide)).1⟩

/-! ## Unknown usernames -/

/-- C2 fails on the grade endpoints: with all required fields present and a role
lookup that returns no row, the grade update and the grade initialisation answer
403, not 404. -/
theorem unknown_user_grades_counterexample :
    (constDb (.ok []) (.ok ⟨1, 1⟩)).select () (roleLookup (.str "ghost")) = (.ok [], ())
    ∧ (updateGrade (constDb (.ok []) (.ok ⟨1, 1⟩)) () "ani" "IPA"
        [("username", .str "ghost"), ("grade", .num 90)]).outcome.status? = some 403
    ∧ (updateGrade (constDb (.ok []) (.ok ⟨1, 1⟩)) () "ani" "IPA"
        [("username", .str "ghost"), ("grade", .num 90)]).outcome.status? ≠ some 404
    ∧ (initGrades (constDb (.ok []) (.ok ⟨1, 1⟩)) () "ani"
        [("username", .str "ghost")]).outcome.status? = some 403
    ∧ (initGrades (constDb (.ok []) (.ok ⟨1, 1⟩)) () "ani"
        [("username", .str "ghost")]).outcome.status? ≠ some 404 := by
  refine ⟨rfl, rfl, ?_, rfl, ?_⟩ <;> decide

/-- C2 as amended: with all required fields passing the presence test and a role
lookup that returns no row, POST /add-absences answers 404 "User not found" (not
403), while PUT /grades/:student_name/:subject and POST /grades/init/:student_name
answer 403 "Access denied: Only teachers can perform this action"; in all three
the role lookup is the only statement issued. -/
theorem unknown_user_response {σ : Type} (db : Db σ) (s s1 : σ) (body : JsObject)
    (student_name subject : String) (hu : ¬ FieldMissing body "username")
    (hsel : db.select s (roleLookup (body.get "username")) = (.ok [], s1)) :
    ((¬ FieldMissing body "student_name" → ¬ FieldMissing body "class" →
      ¬ FieldMissing body "date" → ¬ FieldMissing body "status" →
        (addAbsences db s body).outcome = .responded 404 (.message "User not found")
        ∧ storeStatements (addAbsences db s body).trace = [roleLookup (body.get "username")]))
    ∧ ((updateGrade db s student_name subject body).outcome
          = .responded 403 (.message "Access denied: Only teachers can perform this action")
        ∧ storeStatements (updateGrade db s student_name subject body).trace
          = [roleLookup (body.get "username")])
    ∧ ((initGrades db s student_name body).outcome
          = .responded 403 (.message "Access denied: Only teachers can perform this action")
        ∧ storeStatements (initGrades db s student_name body).trace
          = [roleLookup (body.get "username")]) := by
  simp only [FieldMissing, Bool.not_eq_false] at hu
  simp only [roleLookup] at hsel
  refine ⟨?_, ?_, ?_⟩
  · intro h2 h3 h4 h5
    simp only [FieldMissing, Bool.not_eq_false] at h2 h3 h4 h5
    simp [addAbsences, hu, h2, h3, h4, h5, hsel, storeStatements, Event.stmt?, roleLookup]
  · simp [updateGrade, hu, hsel, notTeacher, storeStatements, Event.stmt?, roleLookup,
      accessDenied]
  · simp [initGrades, hu, hsel, notTeacher, storeStatements, Event.stmt?, roleLookup,
      accessDenied]

/-- C2 as amended, at concrete requests with a username the store does not know. -/
theorem unknown_user_response_witness :
    (addAbsences (constDb (.ok []) (.ok ⟨1, 1⟩)) ()
        [("username", .str "ghost"), ("student_name", .str "ani"), ("class", .str "7A"),
         ("date", .str "2024-12-01"), ("status", .str "sakit")]).outcome
      = .responded 404 (.message "User not found")
    ∧ (updateGrade (constDb (.ok []) (.ok ⟨1, 1⟩)) () "ani" "IPA"
        [("username", .str "ghost"), ("student_name", .str "ani"), ("class", .str "7A"),
         ("date", .str "2024-12-01"), ("status", .str "sakit")]).outcome
      = .responded 403 (.message "Access denied: Only teachers can perform this action") :=
  have h := unknown_user_response (constDb (.ok []) (.ok ⟨1, 1⟩)) () ()
    [("username", .str "ghost"), ("student_name", .str "ani"), ("class", .str "7A"),
     ("date", .str "2024-12-01"), ("status", .str "sakit")] "ani" "IPA" (by decide) rfl
  ⟨(h.1 (by decide) (by decide) (by decide) (by decide)).1, h.2.1.1⟩

/-! ## Store errors -/

/-- C3 fails on POST /add-absences: when the role lookup reports an error, and when
the lookup finds a teacher and the insert reports an error, the callback rethrows
the error; no response is sent, so the status is not 500. -/
theorem addAbsences_store_error_uncaught :
    (addAbsences (constDb (.error ⟨"ECONNRESET"⟩) (.ok ⟨1, 1⟩)) ()
        [("username", .str "guru"), ("student_name", .str "ani"), ("class", .str "7A"),
         ("date", .str "2024-12-01"), ("status", .str "sakit")]).outcome
      = .uncaught (.db ⟨"ECONNRESET"⟩)
    ∧ (addAbsences (constDb (.error ⟨"ECONNRESET"⟩) (.ok ⟨1, 1⟩)) ()
        [("username", .str "guru"), ("student_name", .str "ani"), ("class", .str "7A"),
         ("date", .str "2024-12-01"), ("status", .str "sakit")]).outcome.status? ≠ some 500
    ∧ (addAbsences (constDb (.ok [[("role", .str "teacher")]]) (.error ⟨"ER_LOCK_DEADLOCK"⟩)) ()
        [("username", .str "guru"), ("student_name", .str "ani"), ("class", .str "7A"),
         ("date", .str "2024-12-01"), ("status", .str "sakit")]).outcome
      = .uncaught (.db ⟨"ER_LOCK_DEADLOCK"⟩)
    ∧ (addAbsences (constDb (.ok [[("role", .str "teacher")]]) (.error ⟨"ER_LOCK_DEADLOCK"⟩)) ()
        [("username", .str "guru"), ("student_name", .str "ani"), ("class", .str "7A"),
         ("date", .str "2024-12-01"), ("status", .str "sakit")]).outcome.status? ≠ some 500 := by
  refine ⟨rfl, ?_, rfl, ?_⟩ <;> decide

/-- The sibling handlers of POST /add-absences: in add-schedule, view-schedule, the
per-day views, edit-schedule, del-schedule, GET /absences, grade update, grade
initialisation and GET /grades, a store call that reports an error is answered
with status 500 and no further statement is issued. -/
theorem store_error_answers_500 {σ : Type} (db : Db σ) (s : σ) (body : JsObject)
    (username schedule_id student_name subject day : String) :
    ErrorsAnswered500 (addSchedule db s body)
    ∧ ErrorsAnswered500 (viewSchedule db s username)
    ∧ ErrorsAnswered500 (viewScheduleDay day db s username)
    ∧ ErrorsAnswered500 (editSchedule db s schedule_id body)
    ∧ ErrorsAnswered500 (delSchedule db s schedule_id body)
    ∧ ErrorsAnswered500 (absences db s)
    ∧ ErrorsAnswered500 (updateGrade db s student_name subject body)
    ∧ ErrorsAnswered500 (initGrades db s student_name body)
    ∧ ErrorsAnswered500 (getGrades db s student_name) := by
  unfold ErrorsAnswered500
  refine ⟨?_, ?_, ?_, ?_, ?_, ?_, ?_, ?_, ?_⟩
  · intro q err h
    generalize hr : addSchedule db s body = run at h ⊢
    unfold addSchedule at hr
    simp only [] at hr
    repeat' split at hr
    all_goals subst hr
    all_goals simp [storeStatements, Event.stmt?, Outcome.status?] at h ⊢
    all_goals simp [h]
  · intro q err h
    generalize hr : viewSchedule db s username = run at h ⊢
    unfold viewSchedule at hr
    simp only [] at hr
    repeat' split at hr
    all_goals subst hr
    all_goals simp [storeStatements, Event.stmt?, Outcome.status?] at h ⊢
    all_goals simp [h]
  · intro q err h
    generalize hr : viewScheduleDay day db s username = run at h ⊢
    unfold viewScheduleDay at hr
    simp only [] at hr
    repeat' split at hr
    all_goals subst hr
    all_goals simp [storeStatements, Event.stmt?, Outcome.status?] at h ⊢
    all_goals simp [h]
  · intro q err h
    generalize hr : editSchedule db s schedule_id body = run at h ⊢
    unfold editSchedule at hr
    simp only [] at hr
    repeat' split at hr
    all_goals subst hr
    all_goals simp [storeStatements, Event.stmt?, Outcome.status?] at h ⊢
    all_goals simp [h]
  · intro q err h
    generalize hr : delSchedule db s schedule_id body = run at h ⊢
    unfold delSchedule at hr
    simp only [] at hr
    repeat' split at hr
    all_goals subst hr
    all_goals simp [storeStatements, Event.stmt?, Outcome.status?] at h ⊢
    all_goals simp [h]
  · intro q err h
    generalize hr : absences db s = run at h ⊢
    unfold absences at hr
    simp only [] at hr
    repeat' split at hr
    all_goals subst hr
    all_goals simp [storeStatements, Event.stmt?, Outcome.status?] at h ⊢
    all_goals simp [h]
  · intro q err h
    generalize hr : updateGrade db s student_name subject body = run at h ⊢
    unfold updateGrade at hr
    simp only [] at hr
    repeat' split at hr
    all_goals subst hr
    all_goals simp [storeStatements, Event.stmt?, Outcome.status?] at h ⊢
    all_goals simp [h]
  · intro q err h
    generalize hr : initGrades db s student_name body = run at h ⊢
    unfold initGrades at hr
    simp only [] at hr
    repeat' split at hr
    all_goals subst hr
    all_goals simp [storeStatements, Event.stmt?, Outcome.status?] at h ⊢
    all_goals simp [h]
  · intro q err h
    generalize hr : getGrades db s student_name = run at h ⊢
    unfold getGrades at hr
    simp only [] at hr
    repeat' split at hr
    all_goals subst hr
    all_goals simp [storeStatements, Event.stmt?, Outcome.status?] at h ⊢
    all_goals simp [h]

/-! ## Login -/

/-- C4 fails when the user lookup reports an error: the answer is 500, which is none
of 400, 404, 401 and 200. -/
theorem login_store_error_counterexample :
    (login sampleRuntime (constDb (.error ⟨"ECONNRESET"⟩) (.ok ⟨1, 1⟩)) ()
        [("username", .str "alice"), ("password", .str "pw1")]).outcome
      = .responded 500 (.messageError "Database error" (.db ⟨"ECONNRESET"⟩))
    ∧ (login sampleRuntime (constDb (.error ⟨"ECONNRESET"⟩) (.ok ⟨1, 1⟩)) ()
        [("username", .str "alice"), ("password", .str "pw1")]).outcome.status?
      ∉ [some 400, some 404, some 401, some 200] := by
  refine ⟨rfl, ?_⟩
  decide

theorem login_token_only_after_match {σ : Type} (rt : Runtime) (db : Db σ) (s : σ)
    (body : JsObject) :
    (∀ status message token,
        (login rt db s body).outcome = .responded status (.token message token) →
        status = 200 ∧ ∃ user rest s1,
          db.select s (loginLookup (body.get "username")) = (.ok (user :: rest), s1)
          ∧ rt.bcryptCompare (body.get "password") (user.get "password") = .ok true
          ∧ rt.jwtSign [("user_id", user.get "user_id")] rt.jwtSecret "7d" = .ok token)
    ∧ (∀ payload secret expiresIn result,
        Event.jwtSign payload secret expiresIn result ∈ (login rt db s body).trace →
        expiresIn = "7d" ∧ ∃ user rest s1,
          db.select s (loginLookup (body.get "username")) = (.ok (user :: rest), s1)
          ∧ rt.bcryptCompare (body.get "password") (user.get "password") = .ok true
          ∧ payload = [("user_id", user.get "user_id")]) := by
  constructor
  · intro status message token h
    generalize hr : login rt db s body = run at h
    unfold login at hr
    simp only [] at hr
    repeat' split at hr
    all_goals subst hr
    all_goals simp at h
    rename_i user rest s1 hsel _ hcmp _ tok hsign
    obtain ⟨rfl, -, rfl⟩ := h
    exact ⟨rfl, user, rest, s1, hsel, hcmp, hsign⟩
  · intro payload secret expiresIn result h
    generalize hr : login rt db s body = run at h
    unfold login at hr
    simp only [] at hr
    repeat' split at hr
    all_goals subst hr
    all_goals simp at h
    · rename_i user rest s1 hsel _ hcmp _ e hsign
      obtain ⟨rfl, -, rfl, -⟩ := h
      exact ⟨rfl, user, rest, s1, hsel, hcmp, rfl⟩
    · rename_i user rest s1 hsel _ hcmp _ tok hsign
      obtain ⟨rfl, -, rfl, -⟩ := h
      exact ⟨rfl, user, rest, s1, hsel, hcmp, rfl⟩

/-- C4 as amended: POST /login answers 400 when username or password fails the
presence test (no store access); otherwise 500 when the user lookup reports an
error; 404 when it returns no row; 401 when a row is found and the password
comparison against the stored hash returns false; and 200 with the token when the
comparison returns true and signing the claims {user_id: user_id of the first
row} with a 7-day expiry returns that token. A token is sent or signed only in the
last case: only if the lookup returned a row and the comparison returned true. -/
theorem login_answers {σ : Type} (rt : Runtime) (db : Db σ) (s : σ) (body : JsObject) :
    ((FieldMissing body "username" ∨ FieldMissing body "password") →
      RejectedUntouched (login rt db s body) s "All fields are required")
    ∧ (¬ FieldMissing body "username" → ¬ FieldMissing body "password" →
      (∀ err s1, db.select s (loginLookup (body.get "username")) = (.error err, s1) →
        (login rt db s body).outcome
          = .responded 500 (.messageError "Database error" (.db err)))
      ∧ (∀ s1, db.select s (loginLookup (body.get "username")) = (.ok [], s1) →
        (login rt db s body).outcome = .responded 404 (.message "User not found"))
      ∧ (∀ user rest s1,
        db.select s (loginLookup (body.get "username")) = (.ok (user :: rest), s1) →
        rt.bcryptCompare (body.get "password") (user.get "password") = .ok false →
        (login rt db s body).outcome = .responded 401 (.message "Invalid credentials"))
      ∧ (∀ user rest s1 token,
        db.select s (loginLookup (body.get "username")) = (.ok (user :: rest), s1) →
        rt.bcryptCompare (body.get "password") (user.get "password") = .ok true →
        rt.jwtSign [("user_id", user.get "user_id")] rt.jwtSecret "7d" = .ok token →
        (login rt db s body).outcome = .responded 200 (.token "Login successful" token)))
    ∧ (∀ status message token,
        (login rt db s body).outcome = .responded status (.token message token) →
        status = 200 ∧ ∃ user rest s1,
          db.select s (loginLookup (body.get "username")) = (.ok (user :: rest), s1)
          ∧ rt.bcryptCompare (body.get "password") (user.get "password") = .ok true
          ∧ rt.jwtSign [("user_id", user.get "user_id")] rt.jwtSecret "7d" = .ok token)
    ∧ (∀ payload secret expiresIn result,
        Event.jwtSign payload secret expiresIn result ∈ (login rt db s body).trace →
        expiresIn = "7d" ∧ ∃ user rest s1,
          db.select s (loginLookup (body.get "username")) = (.ok (user :: rest), s1)
          ∧ rt.bcryptCompare (body.get "password") (user.get "password") = .ok true
          ∧ payload = [("user_id", user.get "user_id")]) := by
  refine ⟨?_, ?_, (login_token_only_after_match rt db s body).1,
    (login_token_only_after_match rt db s body).2⟩
  · intro h
    unfold FieldMissing at h
    unfold RejectedUntouched login
    rcases h with h | h <;> simp [h]
  · intro hu hp
    simp only [FieldMissing, Bool.not_eq_false] at hu hp
    refine ⟨?_, ?_, ?_, ?_⟩
    · intro err s1 hsel
      simp only [loginLookup] at hsel
      simp [login, hu, hp, hsel]
    · intro s1 hsel
      simp only [loginLookup] at hsel
      simp [login, hu, hp, hsel]
    · intro user rest s1 hsel hcmp
      simp only [loginLookup] at hsel
      simp [login, hu, hp, hsel, hcmp]
    · intro user rest s1 token hsel hcmp hsign
      simp only [loginLookup] at hsel
      simp [login, hu, hp, hsel, hcmp, hsign]

/-- C4 as amended, at concrete requests: a login with the right password gets the
token; a login without password is rejected before any store access. -/
theorem login_answers_witness :
    (login sampleRuntime
        (constDb (.ok [[("user_id", .num 7), ("username", .str "alice"),
          ("password", .str "$2b$10$pw1"), ("role", .str "student")]]) (.ok ⟨1, 1⟩)) ()
        [("username", .str "alice"), ("password", .str "pw1")]).outcome
      = .responded 200 (.token "Login successful" "header.payload.signature")
    ∧ RejectedUntouched
        (login sampleRuntime
          (constDb (.ok [[("user_id", .num 7), ("username", .str "alice"),
            ("password", .str "$2b$10$pw1"), ("role", .str "student")]]) (.ok ⟨1, 1⟩)) ()
          [("username", .str "alice")])
        () "All fields are required" :=
  ⟨(login_answers sampleRuntime
      (constDb (.ok [[("user_id", .num 7), ("username", .str "alice"),
        ("password", .str "$2b$10$pw1"), ("role", .str "student")]]) (.ok ⟨1, 1⟩)) ()
      [("username", .str "alice"), ("password", .str "pw1")]).2.1 (by decide) (by decide)
      |>.2.2.2 [("user_id", .num 7), ("username", .str "alice"),
        ("password", .str "$2b$10$pw1"), ("role", .str "student")] [] ()
        "header.payload.signature" rfl rfl rfl,
    (login_answers sampleRuntime
      (constDb (.ok [[("user_id", .num 7), ("username", .str "alice"),
        ("password", .str "$2b$10$pw1"), ("role", .str "student")]]) (.ok ⟨1, 1⟩)) ()
      [("username", .str "alice")]).1 (Or.inr rfl)⟩

/-! ## The protected route -/

theorem splitChars_of_not_mem (sep : Char) (cs : List Char) (h : sep ∉ cs) :
    splitChars sep cs = [cs] := by
  induction cs with
  | nil => rfl
  | cons c cs ih =>
    have hc : c ≠ sep := fun e => h (by simp [e])
    have hcs : sep ∉ cs := fun m => h (by simp [m])
    simp [splitChars, hc, ih hcs]

theorem bearerToken_of_bearer (t : String) (h : ' ' ∉ t.data) :
    bearerToken ("Bearer " ++ t) = .str t := by
  have e : ("Bearer " ++ t).data = 'B' :: 'e' :: 'a' :: 'r' :: 'e' :: 'r' :: ' ' :: t.data := by
    rw [String.data_append]
    rfl
  unfold bearerToken
  rw [e]
  simp [splitChars, splitChars_of_not_mem ' ' t.data h]

theorem bearer_ne_empty (t : String) : "Bearer " ++ t ≠ "" := by
  intro e
  have h := congrArg String.length e
  simp [String.length_append] at h
  have : "Bearer ".length = 7 := by decide
  omega

/-- C5 fails for a header that is present but empty: the token extracted from it is
undefined and fails verification, yet the answer carries the message of the
absent-header case, not "Invalid or expired token". -/
theorem protected_empty_header_counterexample :
    sampleRuntime.jwtVerify (bearerToken "") sampleRuntime.jwtSecret
      = .error (.thrown "invalid token")
    ∧ (protectedRoute sampleRuntime () (some "")).outcome
      = .responded 401 (.message "Authorization header missing")
    ∧ (protectedRoute sampleRuntime () (some "")).outcome
      ≠ .responded 401 (.message "Invalid or expired token") := by
  refine ⟨rfl, rfl, ?_⟩
  decide

/-- C5 as amended: (a) if the Authorization header is absent or empty the response
is 401 "Authorization header missing"; (b) if the header is non-empty and the
extracted token (the second space-separated piece, undefined when there is none)
fails verification, for whatever cause, the response is 401 with the single
message "Invalid or expired token", which differs from the message of (a); (c) if
verification of the extracted token succeeds with claims c the response is 200
and carries exactly c, in particular for the header "Bearer " followed by a token
without a space. -/
theorem protected_answers {σ : Type} (rt : Runtime) (s : σ) :
    (protectedRoute rt s none).outcome
      = .responded 401 (.message "Authorization header missing")
    ∧ (protectedRoute rt s (some "")).outcome
      = .responded 401 (.message "Authorization header missing")
    ∧ (∀ authHeader e, authHeader ≠ "" →
        rt.jwtVerify (bearerToken authHeader) rt.jwtSecret = .error e →
        (protectedRoute rt s (some authHeader)).outcome
          = .responded 401 (.message "Invalid or expired token"))
    ∧ ResBody.message "Invalid or expired token" ≠ ResBody.message "Authorization header missing"
    ∧ (∀ authHeader c, authHeader ≠ "" →
        rt.jwtVerify (bearerToken authHeader) rt.jwtSecret = .ok c →
        (protectedRoute rt s (some authHeader)).outcome
          = .responded 200 (.user "Access granted" c))
    ∧ (∀ token c, ' ' ∉ token.data → rt.jwtVerify (.str token) rt.jwtSecret = .ok c →
        (protectedRoute rt s (some ("Bearer " ++ token))).outcome
          = .responded 200 (.user "Access granted" c)) := by
  refine ⟨rfl, rfl, ?_, by decide, ?_, ?_⟩
  · intro authHeader e hne hv
    simp [protectedRoute, hne, hv]
  · intro authHeader c hne hv
    simp [protectedRoute, hne, hv]
  · intro token c hsp hv
    have hb := bearerToken_of_bearer token hsp
    simp [protectedRoute, bearer_ne_empty token, hb, hv]

/-- C5 as amended, at concrete requests: a well-formed bearer header is granted
access with the decoded claims, a header with a wrong token is rejected. -/
theorem protected_answers_witness :
    (protectedRoute sampleRuntime () (some "Bearer header.payload.signature")).outcome
      = .responded 200 (.user "Access granted" [("user_id", .num 7)])
    ∧ (protectedRoute sampleRuntime () (some "Bearer header.payload.signatur")).outcome
      = .responded 401 (.message "Invalid or expired token") :=
  ⟨(protected_answers sampleRuntime ()).2.2.2.2.2 "header.payload.signature"
      [("user_id", .num 7)] (by decide) rfl,
    (protected_answers sampleRuntime ()).2.2.1 "Bearer header.payload.signatur"
      (.thrown "invalid token") (by decide) rfl⟩

/-! ## Ownership-matched schedule mutation -/

theorem scheduleTable_exec_edit (eqv : JsVal → JsVal → Bool) (rows : List JsObject)
    (day subject period schedule_id username : JsVal) :
    (scheduleTable eqv).exec rows
        ⟨editScheduleSql, [.val day, .val subject, .val period, .val schedule_id, .val username]⟩
      = (.ok ⟨(rows.filter (ownedBy eqv schedule_id username)).length, 0⟩,
          rows.map fun r =>
            if ownedBy eqv schedule_id username r then
              setField "period" period (setField "subject" subject (setField "day" day r))
            else r) := by
  simp [scheduleTable]

theorem scheduleTable_exec_del (eqv : JsVal → JsVal → Bool) (rows : List JsObject)
    (schedule_id username : JsVal) :
    (scheduleTable eqv).exec rows ⟨delScheduleSql, [.val schedule_id, .val username]⟩
      = (.ok ⟨(rows.filter (ownedBy eqv schedule_id username)).length, 0⟩,
          rows.filter fun r => !ownedBy eqv schedule_id username r) := by
  have h : delScheduleSql ≠ editScheduleSql := by decide
  simp [scheduleTable, h]

theorem editSchedule_table_not_owned (eqv : JsVal → JsVal → Bool) (rows : List JsObject)
    (schedule_id : String) (body : JsObject)
    (hu : ¬ FieldMissing body "username") (hd : ¬ FieldMissing body "day")
    (hs : ¬ FieldMissing body "subject") (hp : ¬ FieldMissing body "period")
    (hno : ∀ r ∈ rows, ownedBy eqv (.str schedule_id) (body.get "username") r = false) :
    (editSchedule (scheduleTable eqv) rows schedule_id body).outcome
        = .responded 404 (.message notOwnedMessage)
    ∧ (editSchedule (scheduleTable eqv) rows schedule_id body).store = rows := by
  simp only [FieldMissing, Bool.not_eq_false] at hu hd hs hp
  have hf : rows.filter (ownedBy eqv (.str schedule_id) (body.get "username")) = [] := by
    simpa [List.filter_eq_nil_iff] using hno
  have hm : (rows.map fun r =>
      if ownedBy eqv (.str schedule_id) (body.get "username") r then
        setField "period" (body.get "period")
          (setField "subject" (body.get "subject") (setField "day" (body.get "day") r))
      else r) = rows := by
    conv_rhs => rw [← List.map_id rows]
    apply List.map_congr_left
    intro r hr
    simp [hno r hr]
  simp [editSchedule, hu, hd, hs, hp, scheduleTable_exec_edit, hf, hm]

theorem delSchedule_table_not_owned (eqv : JsVal → JsVal → Bool) (rows : List JsObject)
    (schedule_id : String) (body : JsObject)
    (hi : schedule_id ≠ "") (hu : ¬ FieldMissing body "username")
    (hno : ∀ r ∈ rows, ownedBy eqv (.str schedule_id) (body.get "username") r = false) :
    (delSchedule (scheduleTable eqv) rows schedule_id body).outcome
        = .responded 404 (.message notOwnedMessage)
    ∧ (delSchedule (scheduleTable eqv) rows schedule_id body).store = rows := by
  simp only [FieldMissing, Bool.not_eq_false] at hu
  have hf : rows.filter (ownedBy eqv (.str schedule_id) (body.get "username")) = [] := by
    simpa [List.filter_eq_nil_iff] using hno
  have hm : (rows.filter fun r => !ownedBy eqv (.str schedule_id) (body.get "username") r)
      = rows := by
    rw [List.filter_eq_self]
    intro r hr
    simp [hno r hr]
  simp [delSchedule, hi, hu, scheduleTable_exec_del, hf, hm]

theorem editSchedule_table_invalid (eqv : JsVal → JsVal → Bool) (rows : List JsObject)
    (schedule_id : String) (body : JsObject)
    (h : ¬ (¬ FieldMissing body "username" ∧ ¬ FieldMissing body "day"
      ∧ ¬ FieldMissing body "subject" ∧ ¬ FieldMissing body "period")) :
    RejectedUntouched (editSchedule (scheduleTable eqv) rows schedule_id body) rows
      "All fields are required" := by
  have h2 : FieldMissing body "username" ∨ FieldMissing body "day"
      ∨ FieldMissing body "subject" ∨ FieldMissing body "period" := by tauto
  unfold FieldMissing at h2
  unfold RejectedUntouched editSchedule
  rcases h2 with h2 | h2 | h2 | h2 <;> simp [h2]

theorem delSchedule_table_invalid (eqv : JsVal → JsVal → Bool) (rows : List JsObject)
    (schedule_id : String) (body : JsObject)
    (h : ¬ (schedule_id ≠ "" ∧ ¬ FieldMissing body "username")) :
    RejectedUntouched (delSchedule (scheduleTable eqv) rows schedule_id body) rows
      "Schedule ID and username are required" := by
  have h2 : FieldMissing body "username" ∨ schedule_id = "" := by tauto
  unfold FieldMissing at h2
  unfold RejectedUntouched delSchedule
  rcases h2 with h2 | h2 <;> simp [h2]

/-- C8: over the store modelled as a list of schedule rows, PUT
/edit-schedule/:schedule_id and DELETE /del-schedule/:schedule_id answer 200, or
change the store, only when some existing row matches both the given schedule_id
and the given username. And for every store, a valid request with an existing
schedule_id but a username that matches no row with that id gets exactly the same
response (404, same message) and leaves the store as unchanged as a valid request
with a schedule_id that no row has. -/
theorem schedule_mutation_needs_owner (eqv : JsVal → JsVal → Bool) (rows : List JsObject)
    (schedule_id : String) (body : JsObject) :
    (((editSchedule (scheduleTable eqv) rows schedule_id body).outcome.status? = some 200
        ∨ (editSchedule (scheduleTable eqv) rows schedule_id body).store ≠ rows) →
      ∃ r ∈ rows, ownedBy eqv (.str schedule_id) (body.get "username") r = true)
    ∧ (((delSchedule (scheduleTable eqv) rows schedule_id body).outcome.status? = some 200
        ∨ (delSchedule (scheduleTable eqv) rows schedule_id body).store ≠ rows) →
      ∃ r ∈ rows, ownedBy eqv (.str schedule_id) (body.get "username") r = true)
    ∧ (∀ (schedule_id2 : String) (body2 : JsObject),
        (¬ FieldMissing body "username" ∧ ¬ FieldMissing body "day"
          ∧ ¬ FieldMissing body "subject" ∧ ¬ FieldMissing body "period") →
        (¬ FieldMissing body2 "username" ∧ ¬ FieldMissing body2 "day"
          ∧ ¬ FieldMissing body2 "subject" ∧ ¬ FieldMissing body2 "period") →
        (∃ r ∈ rows, eqv (r.get "schedule_id") (.str schedule_id) = true) →
        (∀ r ∈ rows, ownedBy eqv (.str schedule_id) (body.get "username") r = false) →
        (∀ r ∈ rows, eqv (r.get "schedule_id") (.str schedule_id2) = false) →
          (editSchedule (scheduleTable eqv) rows schedule_id body).outcome
              = .responded 404 (.message notOwnedMessage)
          ∧ (editSchedule (scheduleTable eqv) rows schedule_id2 body2).outcome
              = (editSchedule (scheduleTable eqv) rows schedule_id body).outcome
          ∧ (editSchedule (scheduleTable eqv) rows schedule_id body).store = rows
          ∧ (editSchedule (scheduleTable eqv) rows schedule_id2 body2).store = rows)
    ∧ (∀ (schedule_id2 : String) (body2 : JsObject),
        (schedule_id ≠ "" ∧ ¬ FieldMissing body "username") →
        (schedule_id2 ≠ "" ∧ ¬ FieldMissing body2 "username") →
        (∃ r ∈ rows, eqv (r.get "schedule_id") (.str schedule_id) = true) →
        (∀ r ∈ rows, ownedBy eqv (.str schedule_id) (body.get "username") r = false) →
        (∀ r ∈ rows, eqv (r.get "schedule_id") (.str schedule_id2) = false) →
          (delSchedule (scheduleTable eqv) rows schedule_id body).outcome
              = .responded 404 (.message notOwnedMessage)
          ∧ (delSchedule (scheduleTable eqv) rows schedule_id2 body2).outcome
              = (delSchedule (scheduleTable eqv) rows schedule_id body).outcome
          ∧ (delSchedule (scheduleTable eqv) rows schedule_id body).store = rows
          ∧ (delSchedule (scheduleTable eqv) rows schedule_id2 body2).store = rows) := by
  refine ⟨?_, ?_, ?_, ?_⟩
  · intro h
    by_contra hex
    have hno : ∀ r ∈ rows, ownedBy eqv (.str schedule_id) (body.get "username") r = false := by
      intro r hr
      by_contra hne
      exact hex ⟨r, hr, by simpa using hne⟩
    by_cases hv : ¬ FieldMissing body "username" ∧ ¬ FieldMissing body "day"
        ∧ ¬ FieldMissing body "subject" ∧ ¬ FieldMissing body "period"
    · obtain ⟨h1, h2⟩ := editSchedule_table_not_owned eqv rows schedule_id body
        hv.1 hv.2.1 hv.2.2.1 hv.2.2.2 hno
      rcases h with h | h
      · rw [h1] at h; simp [Outcome.status?] at h
      · exact h h2
    · obtain ⟨h1, -, h2⟩ := editSchedule_table_invalid eqv rows schedule_id body hv
      rcases h with h | h
      · rw [h1] at h; simp [Outcome.status?] at h
      · exact h h2
  · intro h
    by_contra hex
    have hno : ∀ r ∈ rows, ownedBy eqv (.str schedule_id) (body.get "username") r = false := by
      intro r hr
      by_contra hne
      exact hex ⟨r, hr, by simpa using hne⟩
    by_cases hv : schedule_id ≠ "" ∧ ¬ FieldMissing body "username"
    · obtain ⟨h1, h2⟩ := delSchedule_table_not_owned eqv rows schedule_id body hv.1 hv.2 hno
      rcases h with h | h
      · rw [h1] at h; simp [Outcome.status?] at h
      · exact h h2
    · obtain ⟨h1, -, h2⟩ := delSchedule_table_invalid eqv rows schedule_id body hv
      rcases h with h | h
      · rw [h1] at h; simp [Outcome.status?] at h
      · exact h h2
  · intro schedule_id2 body2 hv hv2 _ hno hno2
    have hno2 : ∀ r ∈ rows,
        ownedBy eqv (.str schedule_id2) (body2.get "username") r = false := by
      intro r hr
      simp [ownedBy, hno2 r hr]
    obtain ⟨h1, h2⟩ := editSchedule_table_not_owned eqv rows schedule_id body
      hv.1 hv.2.1 hv.2.2.1 hv.2.2.2 hno
    obtain ⟨h3, h4⟩ := editSchedule_table_not_owned eqv rows schedule_id2 body2
      hv2.1 hv2.2.1 hv2.2.2.1 hv2.2.2.2 hno2
    exact ⟨h1, by rw [h1, h3], h2, h4⟩
  · intro schedule_id2 body2 hv hv2 _ hno hno2
    have hno2 : ∀ r ∈ rows,
        ownedBy eqv (.str schedule_id2) (body2.get "username") r = false := by
      intro r hr
      simp [ownedBy, hno2 r hr]
    obtain ⟨h1, h2⟩ := delSchedule_table_not_owned eqv rows schedule_id body hv.1 hv.2 hno
    obtain ⟨h3, h4⟩ := delSchedule_table_not_owned eqv rows schedule_id2 body2 hv2.1 hv2.2 hno2
    exact ⟨h1, by rw [h1, h3], h2, h4⟩

/-- C8 at a concrete store holding one schedule of bob: eve editing or deleting
bob's schedule 1 gets the same 404 as eve editing or deleting the non-existent
schedule 99, and the store stays as it was. -/
theorem schedule_mutation_needs_owner_witness :
    ((editSchedule (scheduleTable sameValue) sampleRows "1" eveEdit).outcome
        = .responded 404 (.message notOwnedMessage)
      ∧ (editSchedule (scheduleTable sameValue) sampleRows "99" eveEdit).outcome
        = (editSchedule (scheduleTable sameValue) sampleRows "1" eveEdit).outcome
      ∧ (editSchedule (scheduleTable sameValue) sampleRows "1" eveEdit).store = sampleRows
      ∧ (editSchedule (scheduleTable sameValue) sampleRows "99" eveEdit).store = sampleRows)
    ∧ ((delSchedule (scheduleTable sameValue) sampleRows "1" eveEdit).outcome
        = .responded 404 (.message notOwnedMessage)
      ∧ (delSchedule (scheduleTable sameValue) sampleRows "99" eveEdit).outcome
        = (delSchedule (scheduleTable sameValue) sampleRows "1" eveEdit).outcome
      ∧ (delSchedule (scheduleTable sameValue) sampleRows "1" eveEdit).store = sampleRows
      ∧ (delSchedule (scheduleTable sameValue) sampleRows "99" eveEdit).store = sampleRows) :=
  ⟨(schedule_mutation_needs_owner sameValue sampleRows "1" eveEdit).2.2.1 "99" eveEdit
      (by decide) (by decide) (by decide) (by decide) (by decide),
    (schedule_mutation_needs_owner sameValue sampleRows "1" eveEdit).2.2.2 "99" eveEdit
      (by decide) (by decide) (by decide) (by decide) (by decide)⟩

/-! ## Grouping by day -/

/-- C6 fails on a day value that names a property inherited from Object.prototype.
A schedule with day "constructor" is accepted by POST /add-schedule and stored;
GET /view-schedule for that user then finds `acc[schedule.day]` truthy without it
being an array, and the call of `push` throws inside the store callback: no
response is sent, so there is no mapping with the key "constructor". -/
theorem viewSchedule_inherited_day_uncaught :
    (addSchedule (scheduleTable sameValue) [] (bobSchedule "constructor")).outcome.status?
      = some 201
    ∧ (viewSchedule (scheduleTable sameValue)
        (addSchedule (scheduleTable sameValue) [] (bobSchedule "constructor")).store
        "bob").outcome
      = .uncaught (.typeError "acc[schedule.day].push is not a function")
    ∧ (viewSchedule (constDb (.ok [bobSchedule "constructor"]) (.ok ⟨1, 1⟩)) () "bob").outcome
      = .uncaught (.typeError "acc[schedule.day].push is not a function") := by
  refine ⟨?_, ?_, ?_⟩ <;> decide


theorem map_fst_setOwn (k : String) (v : List JsObject) (acc : List (String × List JsObject)) :
    (setOwn k v acc).map Prod.fst = acc.map Prod.fst := by
  induction acc with
  | nil => rfl
  | cons e acc ih =>
    obtain ⟨k1, v1⟩ := e
    by_cases h : k1 = k <;> simp [setOwn, h, ih]

theorem lookup_cons_ne (d k1 : String) (v1 : List JsObject)
    (acc : List (String × List JsObject)) (h : d ≠ k1) :
    List.lookup d ((k1, v1) :: acc) = List.lookup d acc := by
  have hb : (d == k1) = false := by simpa using h
  simp [List.lookup_cons, hb]

theorem lookup_setOwn (k d : String) (v : List JsObject) (acc : List (String × List JsObject)) :
    (setOwn k v acc).lookup d
      = if d = k then (acc.lookup k).map (fun _ => v) else acc.lookup d := by
  induction acc with
  | nil => simp [setOwn]
  | cons e acc ih =>
    obtain ⟨k1, v1⟩ := e
    by_cases h : k1 = k
    · subst h
      by_cases hd : d = k1
      · subst hd; simp [setOwn]
      · simp [setOwn, lookup_cons_ne _ _ _ _ hd, hd]
    · by_cases hd : d = k
      · subst hd
        have h' : d ≠ k1 := fun e => h e.symm
        simp [setOwn, h, lookup_cons_ne _ _ _ _ h', ih]
      · by_cases h1 : d = k1
        · subst h1; simp [setOwn, h, hd]
        · simp [setOwn, h, lookup_cons_ne _ _ _ _ h1, ih, hd]

theorem sum_setOwn (k : String) (v e : List JsObject) (acc : List (String × List JsObject))
    (h : acc.lookup k = some e) :
    ((setOwn k v acc).map fun x => x.2.length).sum + e.length
      = (acc.map fun x => x.2.length).sum + v.length := by
  induction acc with
  | nil => simp at h
  | cons x acc ih =>
    obtain ⟨k1, v1⟩ := x
    by_cases hk : k1 = k
    · subst hk
      simp at h
      subst h
      simp [setOwn]
      omega
    · have hk' : k ≠ k1 := fun e => hk e.symm
      rw [lookup_cons_ne _ _ _ _ hk'] at h
      have := ih h
      simp [setOwn, hk]
      omega

theorem rowsOfDay_append (d : String) (seen : List JsObject) (r : JsObject) :
    rowsOfDay d (seen ++ [r])
      = if dayKey r = d then rowsOfDay d seen ++ [r] else rowsOfDay d seen := by
  by_cases h : dayKey r = d <;> simp [rowsOfDay, List.filter_append, h]

theorem groupStep_grouping (acc : List (String × List JsObject)) (seen : List JsObject)
    (r : JsObject) (hacc : GroupingOf acc seen) (hr : dayKey r ∉ objectPrototypeKeys) :
    ∃ acc1, groupStep acc r = .ok acc1 ∧ GroupingOf acc1 (seen ++ [r]) := by
  obtain ⟨hnodup, hsome, hnone, hsum⟩ := hacc
  unfold groupStep
  simp only []
  cases hl : acc.lookup (dayKey r) with
  | some entries =>
    refine ⟨_, rfl, ?_, ?_, ?_, ?_⟩
    · rw [map_fst_setOwn]; exact hnodup
    · intro d l hd
      rw [lookup_setOwn] at hd
      rw [rowsOfDay_append]
      by_cases hk : d = dayKey r
      · subst hk
        simp [hl] at hd
        subst hd
        simp [(hsome _ _ hl).1]
      · have hk' : ¬ dayKey r = d := fun e => hk e.symm
        rw [if_neg hk] at hd
        rw [if_neg hk']
        exact hsome d l hd
    · intro d hd
      rw [lookup_setOwn] at hd
      rw [rowsOfDay_append]
      by_cases hk : d = dayKey r
      · subst hk
        simp [hl] at hd
      · have hk' : ¬ dayKey r = d := fun e => hk e.symm
        rw [if_neg hk] at hd
        rw [if_neg hk']
        exact hnone d hd
    · have := sum_setOwn (dayKey r) (entries ++ [r]) entries acc hl
      simp at this ⊢
      omega
  | none =>
    simp only [hr, if_false]
    refine ⟨_, rfl, ?_, ?_, ?_, ?_⟩
    · rw [List.map_append, List.nodup_append]
      refine ⟨hnodup, by simp, ?_⟩
      simp only [List.lookup_eq_none_iff] at hl
      intro a ha hb
      simp at hb
      subst hb
      simp at ha
      obtain ⟨l, hmem⟩ := ha
      have := hl _ hmem
      simp at this
    · intro d l hd
      rw [List.lookup_append] at hd
      rw [rowsOfDay_append]
      cases hd0 : acc.lookup d with
      | some l0 =>
        rw [hd0] at hd
        simp at hd
        subst hd
        have hk : ¬ dayKey r = d := by
          intro e
          rw [← e, hl] at hd0
          cases hd0
        rw [if_neg hk]
        exact hsome d l0 hd0
      | none =>
        rw [hd0] at hd
        by_cases hk : d = dayKey r
        · subst hk
          simp at hd
          subst hd
          simp [hnone _ hd0]
        · rw [lookup_cons_ne _ _ _ _ hk] at hd
          simp at hd
    · intro d hd
      rw [List.lookup_append] at hd
      rw [rowsOfDay_append]
      cases hd0 : acc.lookup d with
      | some l0 => rw [hd0] at hd; simp at hd
      | none =>
        rw [hd0] at hd
        by_cases hk : d = dayKey r
        · subst hk
          simp at hd
        · have hk' : ¬ dayKey r = d := fun e => hk e.symm
          rw [if_neg hk']
          exact hnone d hd0
    · simp [hsum]

theorem groupSchedules_grouping (rows : List JsObject) :
    ∀ (acc : List (String × List JsObject)) (seen : List JsObject), GroupingOf acc seen →
      (∀ r ∈ rows, dayKey r ∉ objectPrototypeKeys) →
      ∃ g, groupSchedules acc rows = .ok g ∧ GroupingOf g (seen ++ rows) := by
  induction rows with
  | nil =>
    intro acc seen hacc _
    exact ⟨acc, rfl, by simpa using hacc⟩
  | cons r rows ih =>
    intro acc seen hacc hrows
    obtain ⟨acc1, h1, hacc1⟩ := groupStep_grouping acc seen r hacc (hrows r (by simp))
    obtain ⟨g, hg, hgr⟩ := ih acc1 (seen ++ [r]) hacc1 (fun x hx => hrows x (by simp [hx]))
    refine ⟨g, ?_, by simpa using hgr⟩
    simp [groupSchedules, h1, hg]

theorem groupingOf_nil : GroupingOf [] [] := by
  simp [GroupingOf, rowsOfDay]

theorem lookup_of_mem_nodup (acc : List (String × List JsObject)) (d : String)
    (l : List JsObject) (hn : (acc.map Prod.fst).Nodup) (hm : (d, l) ∈ acc) :
    acc.lookup d = some l := by
  induction acc with
  | nil => simp at hm
  | cons e acc ih =>
    obtain ⟨k1, v1⟩ := e
    simp only [List.map_cons, List.nodup_cons] at hn
    rcases List.mem_cons.1 hm with h | h
    · cases h; simp
    · have hne : d ≠ k1 := by
        intro e
        subst e
        exact hn.1 (List.mem_map.2 ⟨(d, l), h, rfl⟩)
      rw [lookup_cons_ne _ _ _ _ hne]
      exact ih hn.2 h

/-- Away from the inherited property names the grouping of `/view-schedule` is as
the specification says: when no row has a day that names a property of
`Object.prototype`, the handler answers 200 with a mapping whose keys are distinct
and are exactly the days occurring in the rows, each key maps to exactly the rows
of that day in the order the store returned them, and the list lengths sum to the
number of rows. -/
theorem viewSchedule_groups_by_day {σ : Type} (db : Db σ) (s s1 : σ) (username : String)
    (rows : List JsObject) (hu : username ≠ "")
    (hsel : db.select s ⟨viewScheduleSql, [.val (.str username)]⟩ = (.ok rows, s1))
    (hrows : ∀ r ∈ rows, dayKey r ∉ objectPrototypeKeys) :
    ∃ g, (viewSchedule db s username).outcome = .responded 200 (.grouped g)
      ∧ (g.map Prod.fst).Nodup
      ∧ (∀ d, d ∈ g.map Prod.fst ↔ ∃ r ∈ rows, dayKey r = d)
      ∧ (∀ d l, (d, l) ∈ g → l = rows.filter fun r => dayKey r == d)
      ∧ (g.map fun e => e.2.length).sum = rows.length := by
  obtain ⟨g, hg, hnodup, hsome, hnone, hsum⟩ :=
    groupSchedules_grouping rows [] [] groupingOf_nil hrows
  simp only [List.nil_append] at hsome hnone hsum
  refine ⟨g, by simp [viewSchedule, hu, hsel, hg], hnodup, ?_, ?_, hsum⟩
  · intro d
    constructor
    · intro hd
      obtain ⟨⟨d1, l⟩, hm, rfl⟩ := List.mem_map.1 hd
      obtain ⟨h1, h2⟩ := hsome _ _ (lookup_of_mem_nodup g _ _ hnodup hm)
      rw [h1] at h2
      obtain ⟨r, hr⟩ := List.exists_mem_of_ne_nil _ h2
      simp only [rowsOfDay, List.mem_filter, beq_iff_eq] at hr
      exact ⟨r, hr.1, hr.2⟩
    · rintro ⟨r, hr, rfl⟩
      cases hl : g.lookup (dayKey r) with
      | none =>
        have := hnone _ hl
        simp only [rowsOfDay, List.filter_eq_nil_iff] at this
        exact absurd (by simp) (this r hr)
      | some l =>
        rw [List.lookup_eq_some_iff] at hl
        obtain ⟨l1, l2, rfl, -⟩ := hl
        simp
  · intro d l hm
    exact (hsome _ _ (lookup_of_mem_nodup g _ _ hnodup hm)).1

/-- The day-grouping scenario of the specification: three schedules of bob on
Senin, Senin and Rabu, added through POST /add-schedule, are returned by
GET /view-schedule/bob as Senin with two entries and Rabu with one, and no other
key. -/
theorem viewSchedule_senin_senin_rabu :
    ∃ a b c, (viewSchedule (scheduleTable sameValue)
        (addSchedule (scheduleTable sameValue)
          (addSchedule (scheduleTable sameValue)
            (addSchedule (scheduleTable sameValue) [] (bobSchedule "Senin")).store
            (bobSchedule "Senin")).store
          (bobSchedule "Rabu")).store "bob").outcome
      = .responded 200 (.grouped [("Senin", [a, b]), ("Rabu", [c])]) :=
  ⟨_, _, _, rfl⟩

end NodeApi
